import Mathlib

/-!
Shallow embedding of the battery electrolyte design multi-agent backend
(`backend/agents/*.py`) and verification of its specification claims.

Conventions of the embedding:
* Python `str` becomes `String`; Python numbers become `ℚ` (floats) or `ℤ`/`ℕ`
  (ints); Python `dict` literals whose shape is fixed become structures, and
  dicts used as maps become association lists in insertion order.
* Python `round(x, k)` is modelled by rounding `10^k * x` to the nearest
  integer (`round` of Mathlib, which resolves exact ties upward where Python
  resolves them to even; no claim depends on tie behaviour) and dividing back.
  Python `int(x)` truncates toward zero (`pyInt`).
* External collaborators (the language-model backend, the vector store, the
  random generator, uuid generation, the wall clock) are parameters of the
  embedded operations, so theorems quantify over their behaviour.
-/

/-! ## String helpers (Python `in`, `startswith` on strings) -/

/-- Boolean prefix test on character lists. -/
def charsLeads : List Char → List Char → Bool
  | [], _ => true
  | _ :: _, [] => false
  | a :: as, b :: bs => a == b && charsLeads as bs

/-- Boolean contiguous-substring test on character lists. -/
def charsOccurs (needle : List Char) : List Char → Bool
  | [] => needle.isEmpty
  | c :: t => charsLeads needle (c :: t) || charsOccurs needle t

/-- Python's `needle in hay` for strings: contiguous substring test. -/
def strContains (hay needle : String) : Bool :=
  charsOccurs needle.data hay.data

/-- Python `str.upper()` (character-wise upper-casing, as `String.toUpper`,
but stated on the character list so that proofs can compute with it). -/
def strUpper (s : String) : String := ⟨s.data.map Char.toUpper⟩

/-- Python `str.lower()`. -/
def strLower (s : String) : String := ⟨s.data.map Char.toLower⟩

/-- Python `str.strip()`: drop leading and trailing whitespace. -/
def strTrim (s : String) : String :=
  ⟨((s.data.dropWhile Char.isWhitespace).reverse.dropWhile Char.isWhitespace).reverse⟩

/-- Python `str.startswith(...)`. -/
def strStartsWith (s pre : String) : Bool := charsLeads pre.data s.data

theorem charsLeads_self_append (n r : List Char) : charsLeads n (n ++ r) = true := by
  induction n with
  | nil => rfl
  | cons a as ih => simp [charsLeads, ih]

theorem charsOccurs_append (l n r : List Char) : charsOccurs n (l ++ (n ++ r)) = true := by
  induction l with
  | nil =>
    cases n with
    | nil =>
      cases r with
      | nil => rfl
      | cons c t => simp [charsOccurs, charsLeads]
    | cons a as =>
      have h := charsLeads_self_append (a :: as) r
      simp only [charsOccurs, List.nil_append, List.cons_append, Bool.or_eq_true]
      exact Or.inl (by simpa using h)
  | cons c cs ih =>
    show charsOccurs n (c :: (cs ++ (n ++ r))) = true
    simp [charsOccurs, ih]

theorem string_data_append (a b : String) : (a ++ b).data = a.data ++ b.data := by
  cases a; cases b; rfl

/-- A string built around `b` contains `b`. -/
theorem strContains_append (a b c : String) : strContains (a ++ b ++ c) b = true := by
  have h : (a ++ b ++ c).data = a.data ++ (b.data ++ c.data) := by
    rw [string_data_append, string_data_append, List.append_assoc]
  simp only [strContains, h]
  exact charsOccurs_append a.data b.data c.data

/-! ## Numeric helpers (Python `round` and `int`) -/

/-- Python `round(x, 1)` on rationals. -/
def round1 (q : ℚ) : ℚ := (round (10 * q) : ℤ) / 10

/-- Python `round(x, 2)` on rationals. -/
def round2 (q : ℚ) : ℚ := (round (100 * q) : ℤ) / 100

/-- Python `int(x)`: truncation toward zero. -/
def pyInt (q : ℚ) : ℤ := if 0 ≤ q then ⌊q⌋ else ⌈q⌉

theorem floor_one_half : ⌊(1 / 2 : ℚ)⌋ = 0 := by
  apply Int.floor_eq_zero_iff.mpr
  constructor <;> norm_num

theorem round_between (lo hi : ℤ) (x : ℚ) (h1 : (lo : ℚ) ≤ x) (h2 : x ≤ (hi : ℚ)) :
    lo ≤ round x ∧ round x ≤ hi := by
  rw [round_eq]
  constructor
  · apply Int.le_floor.mpr
    linarith
  · have hle : x + 1 / 2 ≤ 1 / 2 + (hi : ℚ) := by linarith
    have hfl := Int.floor_mono hle
    rw [Int.floor_add_int, floor_one_half] at hfl
    simpa using hfl

theorem pyInt_between (lo hi : ℤ) (x : ℚ) (h1 : (lo : ℚ) ≤ x) (h2 : x ≤ (hi : ℚ)) :
    lo ≤ pyInt x ∧ pyInt x ≤ hi := by
  unfold pyInt
  split
  · refine ⟨Int.le_floor.mpr h1, ?_⟩
    have h : ((⌊x⌋ : ℚ)) ≤ (hi : ℚ) := (Int.floor_le x).trans h2
    exact_mod_cast h
  · refine ⟨?_, Int.ceil_le.mpr h2⟩
    have h : (lo : ℚ) ≤ ((⌈x⌉ : ℚ)) := h1.trans (Int.le_ceil x)
    exact_mod_cast h

/-! ## Property / compatibility agent (`property_compatibility_agent.py`) -/

/-- Operating conditions record (`operating_conditions` dict); `none` models a
missing key, with the source's `.get` defaults applied at the use sites. -/
structure OperatingConditions where
  maxVoltage : Option ℚ := none
  maxTemperature : Option ℚ := none
  minTemperature : Option ℚ := none
deriving DecidableEq

/-- Electrode materials record (`electrode_materials` dict). -/
structure ElectrodeMaterials where
  anode : Option String := none
  cathode : Option String := none
deriving DecidableEq

/-- One record of `_initialize_compatibility_rules`. -/
structure CompatRule where
  ruleId : String
  components : List String
  condition : String
  withMaterial : Option String := none
  issue : String
  severity : String
  solution : String
deriving DecidableEq

/-- The static compatibility-rule table of `_initialize_compatibility_rules`. -/
def compatibilityRules : List CompatRule := [
  { ruleId := "PC_graphite", components := ["PC"],
    condition := "PC concentration > 30%",
    withMaterial := some "graphite_anode",
    issue := "PC causes graphite exfoliation due to co-intercalation",
    severity := "critical",
    solution := "Use EC-based electrolyte or add FEC (10%)" },
  { ruleId := "LiTFSI_Al", components := ["LiTFSI"],
    condition := "voltage > 3.8V",
    withMaterial := some "aluminum_current_collector",
    issue := "LiTFSI corrodes aluminum at high voltages",
    severity := "high",
    solution := "Add LiPF6 (50:50 ratio) or use LiTFSI concentration < 0.5M" },
  { ruleId := "LiPF6_thermal", components := ["LiPF6"],
    condition := "temperature > 60°C",
    issue := "LiPF6 decomposes, releasing HF",
    severity := "high",
    solution := "Use LiBF4 or LiFSI for high-temperature applications" },
  { ruleId := "high_EC_viscosity", components := ["EC"],
    condition := "EC concentration > 50%",
    issue := "High viscosity reduces rate capability",
    severity := "medium",
    solution := "Add linear carbonates (DMC, EMC, DEC) to reduce viscosity" },
  { ruleId := "FEC_gas_generation", components := ["FEC"],
    condition := "concentration > 15%",
    issue := "Excessive CO2 generation during cycling",
    severity := "medium",
    solution := "Keep FEC between 5-10 wt%" },
  { ruleId := "high_voltage_cathode", components := ["EC", "DMC", "EMC", "DEC"],
    condition := "cathode voltage > 4.5V",
    issue := "Carbonate solvents oxidize at high voltages",
    severity := "high",
    solution := "Add FEC, use fluorinated solvents, or consider high-concentration electrolyte" }
]

/-- An entry appended to `issues` by `_check_compatibility`. -/
structure CompatIssue where
  ruleId : String
  issue : String
  severity : String
  solution : String
deriving DecidableEq

/-- Embeds `_check_compatibility`.  Note the source compares the mixed-case literals
`"LiTFSI"` / `"LiPF6"` against lists whose elements were upper-cased. -/
def checkCompatibility (components : List String) (oc : OperatingConditions)
    (em : ElectrodeMaterials) : List CompatIssue :=
  let componentsUpper := components.map strUpper
  let voltage := oc.maxVoltage.getD 4.2
  let temperature := oc.maxTemperature.getD 45
  let anode := em.anode.getD "graphite"
  compatibilityRules.filterMap fun rule =>
    let ruleComponents := rule.components.map strUpper
    if ruleComponents.any (fun rc => componentsUpper.contains rc) then
      let triggered :=
        (ruleComponents.contains "PC" && componentsUpper.contains "PC"
          && strContains (strLower anode) "graphite")
        || (ruleComponents.contains "LiTFSI" && componentsUpper.contains "LiTFSI"
          && decide (voltage > 3.8))
        || (ruleComponents.contains "LiPF6" && componentsUpper.contains "LiPF6"
          && decide (temperature > 60))
        || (strContains rule.condition "cathode voltage" && decide (voltage > 4.5))
      if triggered then
        some { ruleId := rule.ruleId, issue := rule.issue,
               severity := rule.severity, solution := rule.solution }
      else none
    else none

/-- A molecular-property record of `_initialize_property_database`; only the
fields read by the embedded operations are kept (the other numeric fields of
the table are never read by any code under verification). -/
structure PropEntry where
  category : String
  viscosity : Option ℚ := none
  dielectricConstant : Option ℚ := none
  oxidationPotential : Option ℚ := none
  reductionPotential : Option ℚ := none
deriving DecidableEq

/-- The static molecular-property table (keys keep their source spelling). -/
def propertyDatabase : List (String × PropEntry) := [
  ("EC", { category := "solvent", viscosity := some 1.9,
           dielectricConstant := some 89.8,
           oxidationPotential := some 6.2, reductionPotential := some 0.8 }),
  ("DMC", { category := "solvent", viscosity := some 0.59,
            dielectricConstant := some 3.1,
            oxidationPotential := some 6.7, reductionPotential := some 1.0 }),
  ("EMC", { category := "solvent", viscosity := some 0.65,
            dielectricConstant := some 2.9,
            oxidationPotential := some 6.7, reductionPotential := some 1.0 }),
  ("DEC", { category := "solvent", viscosity := some 0.75,
            dielectricConstant := some 2.8,
            oxidationPotential := some 6.7, reductionPotential := some 1.0 }),
  ("PC", { category := "solvent", viscosity := some 2.5,
           dielectricConstant := some 64.9,
           oxidationPotential := some 6.6, reductionPotential := some 0.9 }),
  ("LiPF6", { category := "salt" }),
  ("LiTFSI", { category := "salt" }),
  ("LiFSI", { category := "salt" }),
  ("LiBF4", { category := "salt" }),
  ("VC", { category := "additive" }),
  ("FEC", { category := "additive" }),
  ("PS", { category := "additive" }),
  ("LiBOB", { category := "additive" })
]

/-- Value stored for a component by `_get_component_properties`: either the
database record or the `"status": "unknown"` marker dict. -/
inductive ComponentProps
  | known (entry : PropEntry)
  | unknownComponent
deriving DecidableEq

/-- Embeds `_get_component_properties`: dict keyed by the upper-cased component name.
(The database keys for salts and additives are mixed-case, so e.g. `"LiPF6"`
upper-cases to `"LIPF6"` and misses the `"LiPF6"` key.) -/
def getComponentProperties (components : List String) : List (String × ComponentProps) :=
  components.foldl
    (fun acc comp =>
      let compUpper := strUpper comp
      let value :=
        match propertyDatabase.find? (fun p => p.fst == compUpper) with
        | some p => ComponentProps.known p.snd
        | none => ComponentProps.unknownComponent
      -- Python dict: a repeated key keeps its first position (the stored value
      -- is a pure function of the key, so keeping the first entry is exact).
      if acc.any (fun q => q.fst == compUpper) then acc else acc ++ [(compUpper, value)])
    []

/-- Aggregate mixture properties computed by `_calculate_aggregate_properties`
(the `{}` returned when no solvent is present becomes `none`). -/
structure AggregateProps where
  estimatedViscosityMPas : ℚ
  estimatedDielectricConstant : ℚ
  electrochemicalWindow : ℚ × ℚ
  windowWidthV : ℚ
deriving DecidableEq

/-- Embeds `_calculate_aggregate_properties`. -/
def calculateAggregateProperties (properties : List (String × ComponentProps)) :
    Option AggregateProps :=
  let solvents := properties.filterMap fun p =>
    match p.snd with
    | ComponentProps.known e => if e.category == "solvent" then some e else none
    | ComponentProps.unknownComponent => none
  match solvents with
  | [] => none
  | s0 :: rest =>
    let n : ℚ := (solvents.length : ℚ)
    let avgViscosity := (solvents.map (fun s => s.viscosity.getD 1.0)).sum / n
    let avgDielectric := (solvents.map (fun s => s.dielectricConstant.getD 10)).sum / n
    let minOxidation := (rest.map (fun s => s.oxidationPotential.getD 6.0)).foldl
      min (s0.oxidationPotential.getD 6.0)
    let maxReduction := (rest.map (fun s => s.reductionPotential.getD 0.5)).foldl
      max (s0.reductionPotential.getD 0.5)
    some { estimatedViscosityMPas := round2 avgViscosity,
           estimatedDielectricConstant := round1 avgDielectric,
           electrochemicalWindow := (round2 maxReduction, round2 minOxidation),
           windowWidthV := round2 (minOxidation - maxReduction) }

/-- Embeds `_generate_recommendations`. -/
def generateRecommendations (components : List String) (issues : List CompatIssue)
    (oc : OperatingConditions) : List String :=
  let recsIssues := issues.filterMap fun issue =>
    if issue.severity == "critical" || issue.severity == "high" then
      some ("PRIORITY: " ++ issue.solution)
    else none
  let voltage := oc.maxVoltage.getD 4.2
  let temp := oc.maxTemperature.getD 45
  let recsVoltage :=
    if voltage > 4.3 then ["Consider adding VC or FEC for high-voltage stability"] else []
  let recsTemp :=
    if temp > 50 then
      ["Consider LiFSI or LiBF4 instead of LiPF6 for thermal stability"]
    else []
  let componentsUpper := components.map strUpper
  let hasAdditive := componentsUpper.any fun c =>
    match propertyDatabase.find? (fun p => p.fst == c) with
    | some p => p.snd.category == "additive"
    | none => false
  let recsAdditive :=
    if hasAdditive then [] else ["Consider adding VC (1-2 wt%) for improved cycle life"]
  let recommendations := recsIssues ++ recsVoltage ++ recsTemp ++ recsAdditive
  if recommendations.isEmpty then
    ["Formulation appears compatible for intended use"]
  else recommendations

/-- Result dict of `PropertyCompatibilityAgent.process`; `llmAnalysis` models
the `llm_analysis` key the orchestrator may add afterwards. -/
structure PropResult where
  status : String
  componentProperties : List (String × ComponentProps)
  aggregateProperties : Option AggregateProps
  compatibilityIssues : List CompatIssue
  recommendations : List String
  isCompatible : Bool
  llmAnalysis : Option String := none
deriving DecidableEq

/-- Embeds `PropertyCompatibilityAgent.process`. -/
def propProcess (components : List String) (oc : OperatingConditions)
    (em : ElectrodeMaterials) : PropResult :=
  let properties := getComponentProperties components
  let compatibilityIssues := checkCompatibility components oc em
  { status := "success",
    componentProperties := properties,
    aggregateProperties := calculateAggregateProperties properties,
    compatibilityIssues := compatibilityIssues,
    recommendations := generateRecommendations components compatibilityIssues oc,
    isCompatible :=
      (compatibilityIssues.filter (fun i => i.severity == "critical")).length == 0 }

/-! ### Claims C1 and C8 -/

/-- C8: every result of the property/compatibility responder's `process`
operation carries `is_compatible`, and it is `true` exactly when no returned
compatibility issue has severity `"critical"`. -/
theorem c8_is_compatible_iff_no_critical (components : List String)
    (oc : OperatingConditions) (em : ElectrodeMaterials) :
    (propProcess components oc em).isCompatible = true ↔
      ∀ i ∈ (propProcess components oc em).compatibilityIssues, i.severity ≠ "critical" := by
  simp [propProcess, List.length_eq_zero, List.filter_eq_nil_iff]

/-- C1 (code bug): the LiPF6 thermal rule and the LiTFSI aluminum-corrosion
rule never fire, because `_check_compatibility` compares the mixed-case
literals `"LiPF6"` / `"LiTFSI"` against upper-cased lists.  A components list
containing LiPF6 with `max_temperature` 70 (> 60) yields no issue, and one
containing LiTFSI with `max_voltage` 4.0 (> 3.8) yields no issue, contradicting
the rule table.  The `"cathode voltage"` rule, whose trigger does not do a
case-mangled comparison, does fire, showing the embedding is not vacuous. -/
theorem c1_compat_rules_code_bug :
    checkCompatibility ["LiPF6"] { maxTemperature := some 70 } {} = [] ∧
    checkCompatibility ["LiTFSI"] { maxVoltage := some 4.0 } {} = [] ∧
    checkCompatibility ["EC"] { maxVoltage := some 4.6 } {} =
      [{ ruleId := "high_voltage_cathode",
         issue := "Carbonate solvents oxidize at high voltages",
         severity := "high",
         solution := "Add FEC, use fluorinated solvents, or consider high-concentration electrolyte" }] := by
  refine ⟨?_, ?_, ?_⟩ <;>
    · norm_num [checkCompatibility, compatibilityRules, strUpper, strLower, strContains,
        charsOccurs, charsLeads, List.filterMap]
      decide

/-! ## Performance prediction agent (`performance_prediction_agent.py`) -/

/-- Embeds `_detect_chemistry`: substring tests of indicator strings against the
upper-cased formulation component names, lithium first. -/
def detectChemistry (formulation : List (String × ℚ)) : String :=
  let componentsUpper := formulation.map fun kv => strUpper kv.fst
  let liIndicators := ["LIPF6", "LIFSI", "LITFSI", "LIBF4", "LIBOB", "LI", "LITHIUM"]
  if liIndicators.any (fun ind => componentsUpper.any fun comp => strContains comp ind) then
    "lithium-ion"
  else
    let znIndicators := ["ZN", "ZNSO4", "ZNCL2", "ZNTFSI", "ZN(CF3SO3)2", "ZINC"]
    if znIndicators.any (fun ind => componentsUpper.any fun comp => strContains comp ind) then
      "zinc"
    else
      let naIndicators := ["NA", "NAPF6", "NATFSI", "NAFSI", "SODIUM"]
      if naIndicators.any (fun ind => componentsUpper.any fun comp => strContains comp ind) then
        "sodium-ion"
      else
        let mgIndicators := ["MG", "MGCL2", "MGTFSI", "MAGNESIUM"]
        if mgIndicators.any (fun ind => componentsUpper.any fun comp => strContains comp ind) then
          "magnesium"
        else
          let aqueousIndicators := ["H2O", "WATER", "AQUEOUS"]
          if aqueousIndicators.any (fun ind => componentsUpper.any fun comp => strContains comp ind) then
            "aqueous"
          else "unknown"

/-- One baseline record of `_get_base_values_for_chemistry`. -/
structure Baseline where
  capacity : ℚ
  cycles : ℚ
  rate : ℚ
  conductivity : ℚ
  tempRange : ℚ × ℚ
deriving DecidableEq

/-- Embeds `_get_base_values_for_chemistry` (dict lookup with `"unknown"` default). -/
def baseValuesForChemistry (chemistry : String) : Baseline :=
  if chemistry == "lithium-ion" then
    { capacity := 85, cycles := 500, rate := 70, conductivity := 10, tempRange := (-20, 60) }
  else if chemistry == "zinc" then
    { capacity := 80, cycles := 300, rate := 65, conductivity := 50, tempRange := (0, 50) }
  else if chemistry == "sodium-ion" then
    { capacity := 80, cycles := 400, rate := 65, conductivity := 8, tempRange := (-20, 55) }
  else if chemistry == "magnesium" then
    { capacity := 75, cycles := 200, rate := 50, conductivity := 5, tempRange := (0, 50) }
  else if chemistry == "aqueous" then
    { capacity := 80, cycles := 500, rate := 80, conductivity := 100, tempRange := (0, 40) }
  else
    { capacity := 75, cycles := 300, rate := 60, conductivity := 5, tempRange := (-10, 50) }

/-- The `predictions` dict of a prediction result. -/
structure Predictions where
  capacityRetentionPercent : ℚ
  cycleStabilityCycles : ℤ
  rateCapability2CPercent : ℚ
  ionicConductivityMSCm : ℚ
  temperatureRangeC : ℚ × ℚ
deriving DecidableEq

/-- Result dict of `PerformancePredictionAgent.process` (both the LLM path
and `_basic_estimation` produce this shape). -/
structure PredResult where
  status : String
  predictions : Predictions
  confidenceScore : ℚ
  modelNotes : String
  batteryChemistry : String
  formulationAnalyzed : List (String × ℚ)
  predictionMethod : String
deriving DecidableEq

/-- Embeds `_basic_estimation`.  `variation` stands for the draw of
`random.uniform(-5, 5)`; theorems quantify over it with `-5 ≤ variation ≤ 5`.
The unused `operating_conditions` parameter of the source is kept. -/
def basicEstimation (formulation : List (String × ℚ)) (_oc : OperatingConditions)
    (variation : ℚ) : PredResult :=
  let chemistry := detectChemistry formulation
  let base := baseValuesForChemistry chemistry
  { status := "success",
    predictions := {
      capacityRetentionPercent := round1 (base.capacity + variation),
      cycleStabilityCycles := pyInt (base.cycles + variation * 10),
      rateCapability2CPercent := round1 (base.rate + variation),
      ionicConductivityMSCm := round2 (base.conductivity + variation * 0.1),
      temperatureRangeC := base.tempRange },
    confidenceScore := 0.5,
    modelNotes := "Basic estimation for " ++ chemistry
      ++ " chemistry. LLM service not available for detailed analysis.",
    batteryChemistry := chemistry,
    formulationAnalyzed := formulation,
    predictionMethod := "basic_estimation" }

/-! ### Jitter-bound helper lemmas -/

theorem abs_round1_sub_le (b : ℤ) (v bound : ℚ)
    (h1 : -bound ≤ v) (h2 : v ≤ bound) (hbi : ∃ k : ℤ, bound = (k : ℚ) / 10) :
    |round1 ((b : ℚ) + v) - (b : ℚ)| ≤ bound := by
  obtain ⟨k, hk⟩ := hbi
  have hlo : ((10 * b - k : ℤ) : ℚ) ≤ 10 * ((b : ℚ) + v) := by push_cast; linarith
  have hhi : 10 * ((b : ℚ) + v) ≤ ((10 * b + k : ℤ) : ℚ) := by push_cast; linarith
  obtain ⟨hl, hr⟩ := round_between (10 * b - k) (10 * b + k) (10 * ((b : ℚ) + v)) hlo hhi
  rw [round1, abs_le]
  have hl' : ((10 * b - k : ℤ) : ℚ) ≤ ((round (10 * ((b : ℚ) + v)) : ℤ) : ℚ) := by
    exact_mod_cast hl
  have hr' : ((round (10 * ((b : ℚ) + v)) : ℤ) : ℚ) ≤ ((10 * b + k : ℤ) : ℚ) := by
    exact_mod_cast hr
  constructor <;> push_cast at hl' hr' ⊢ <;> [linarith; linarith]

theorem abs_round2_sub_le (b : ℤ) (v bound : ℚ)
    (h1 : -bound ≤ v) (h2 : v ≤ bound) (hbi : ∃ k : ℤ, bound = (k : ℚ) / 100) :
    |round2 ((b : ℚ) + v) - (b : ℚ)| ≤ bound := by
  obtain ⟨k, hk⟩ := hbi
  have hlo : ((100 * b - k : ℤ) : ℚ) ≤ 100 * ((b : ℚ) + v) := by push_cast; linarith
  have hhi : 100 * ((b : ℚ) + v) ≤ ((100 * b + k : ℤ) : ℚ) := by push_cast; linarith
  obtain ⟨hl, hr⟩ := round_between (100 * b - k) (100 * b + k) (100 * ((b : ℚ) + v)) hlo hhi
  rw [round2, abs_le]
  have hl' : ((100 * b - k : ℤ) : ℚ) ≤ ((round (100 * ((b : ℚ) + v)) : ℤ) : ℚ) := by
    exact_mod_cast hl
  have hr' : ((round (100 * ((b : ℚ) + v)) : ℤ) : ℚ) ≤ ((100 * b + k : ℤ) : ℚ) := by
    exact_mod_cast hr
  constructor <;> push_cast at hl' hr' ⊢ <;> [linarith; linarith]

theorem abs_pyInt_sub_le (b : ℤ) (w : ℚ) (bound : ℤ) (h1 : -(bound : ℚ) ≤ w)
    (h2 : w ≤ (bound : ℚ)) :
    |((pyInt ((b : ℚ) + w) : ℤ) : ℚ) - (b : ℚ)| ≤ (bound : ℚ) := by
  have hlo : ((b - bound : ℤ) : ℚ) ≤ (b : ℚ) + w := by push_cast; linarith
  have hhi : (b : ℚ) + w ≤ ((b + bound : ℤ) : ℚ) := by push_cast; linarith
  obtain ⟨hl, hr⟩ := pyInt_between (b - bound) (b + bound) ((b : ℚ) + w) hlo hhi
  rw [abs_le]
  have hl' : ((b - bound : ℤ) : ℚ) ≤ ((pyInt ((b : ℚ) + w) : ℤ) : ℚ) := by exact_mod_cast hl
  have hr' : ((pyInt ((b : ℚ) + w) : ℤ) : ℚ) ≤ ((b + bound : ℤ) : ℚ) := by exact_mod_cast hr
  constructor <;> push_cast at hl' hr' ⊢ <;> [linarith; linarith]

/-- Every baseline of the table has integer metric entries. -/
theorem baseline_entries_int (c : String) :
    ∃ a b r k t1 t2 : ℤ, baseValuesForChemistry c =
      { capacity := (a : ℚ), cycles := (b : ℚ), rate := (r : ℚ),
        conductivity := (k : ℚ), tempRange := ((t1 : ℚ), (t2 : ℚ)) } := by
  unfold baseValuesForChemistry
  split_ifs
  · exact ⟨85, 500, 70, 10, -20, 60, by norm_num⟩
  · exact ⟨80, 300, 65, 50, 0, 50, by norm_num⟩
  · exact ⟨80, 400, 65, 8, -20, 55, by norm_num⟩
  · exact ⟨75, 200, 50, 5, 0, 50, by norm_num⟩
  · exact ⟨80, 500, 80, 100, 0, 40, by norm_num⟩
  · exact ⟨75, 300, 60, 5, -10, 50, by norm_num⟩

/-! ### Claims C5 and C9 -/

/-- C5: with the model backend unavailable, `_basic_estimation` returns the
chemistry baseline offset by a jitter bounded by ±5 for capacity retention and
rate capability, ±50 for cycle stability, ±0.5 for ionic conductivity; the
temperature range is the baseline range exactly, the confidence score is
exactly 0.5 and the method is reported as `basic_estimation`. -/
theorem c5_basic_estimation_fallback (formulation : List (String × ℚ))
    (oc : OperatingConditions) (v : ℚ) (h1 : -5 ≤ v) (h2 : v ≤ 5) :
    |(basicEstimation formulation oc v).predictions.capacityRetentionPercent -
        (baseValuesForChemistry (detectChemistry formulation)).capacity| ≤ 5 ∧
    |((basicEstimation formulation oc v).predictions.cycleStabilityCycles : ℚ) -
        (baseValuesForChemistry (detectChemistry formulation)).cycles| ≤ 50 ∧
    |(basicEstimation formulation oc v).predictions.rateCapability2CPercent -
        (baseValuesForChemistry (detectChemistry formulation)).rate| ≤ 5 ∧
    |(basicEstimation formulation oc v).predictions.ionicConductivityMSCm -
        (baseValuesForChemistry (detectChemistry formulation)).conductivity| ≤ 1 / 2 ∧
    (basicEstimation formulation oc v).predictions.temperatureRangeC =
        (baseValuesForChemistry (detectChemistry formulation)).tempRange ∧
    (basicEstimation formulation oc v).confidenceScore = 0.5 ∧
    (basicEstimation formulation oc v).predictionMethod = "basic_estimation" := by
  obtain ⟨a, b, r, k, t1, t2, hbase⟩ := baseline_entries_int (detectChemistry formulation)
  simp only [basicEstimation, hbase]
  refine ⟨?_, ?_, ?_, ?_, trivial, trivial, trivial⟩
  · exact abs_round1_sub_le a v 5 h1 h2 ⟨50, by norm_num⟩
  · exact abs_pyInt_sub_le b (v * 10) 50 (by push_cast; linarith) (by push_cast; linarith)
  · exact abs_round1_sub_le r v 5 h1 h2 ⟨50, by norm_num⟩
  · refine abs_round2_sub_le k (v * 0.1) (1 / 2) ?_ ?_ ⟨50, by norm_num⟩
    · have hv : v * 0.1 = v / 10 := by ring
      rw [hv]; linarith
    · have hv : v * 0.1 = v / 10 := by ring
      rw [hv]; linarith

/-- Witness for C5 at the zero jitter draw and a `LiPF6` formulation. -/
theorem c5_basic_estimation_fallback_witness :
    -(5 : ℚ) ≤ 0 ∧ (0 : ℚ) ≤ 5 ∧
    (basicEstimation [("LiPF6", 1)] {} 0).confidenceScore = 0.5 ∧
    (basicEstimation [("LiPF6", 1)] {} 0).predictionMethod = "basic_estimation" ∧
    (basicEstimation [("LiPF6", 1)] {} 0).predictions.temperatureRangeC =
      (baseValuesForChemistry (detectChemistry [("LiPF6", 1)])).tempRange := by
  have h := c5_basic_estimation_fallback [("LiPF6", 1)] {} 0 (by norm_num) (by norm_num)
  exact ⟨by norm_num, by norm_num, h.2.2.2.2.2.1, h.2.2.2.2.2.2, h.2.2.2.2.1⟩

/-- C9: the lithium indicators are tested first using substring containment on
upper-cased component names, so any formulation with a component whose
upper-cased name contains `"LI"` is classified `lithium-ion`, regardless of
any zinc / sodium / magnesium salts also present. -/
theorem c9_li_substring_dominates (formulation : List (String × ℚ))
    (h : ∃ kv ∈ formulation, strContains (strUpper kv.fst) "LI" = true) :
    detectChemistry formulation = "lithium-ion" := by
  obtain ⟨kv, hmem, hcontains⟩ := h
  have hany : (["LIPF6", "LIFSI", "LITFSI", "LIBF4", "LIBOB", "LI", "LITHIUM"].any
      fun ind => (formulation.map fun kv => strUpper kv.fst).any
        fun comp => strContains comp ind) = true := by
    apply List.any_eq_true.mpr
    refine ⟨"LI", by simp, ?_⟩
    apply List.any_eq_true.mpr
    exact ⟨strUpper kv.fst, List.mem_map_of_mem _ hmem, hcontains⟩
  simp only [detectChemistry]
  rw [if_pos hany]

/-- Witness for C9: a zinc electrolyte carrying a LiTFSI additive is
classified as lithium-ion. -/
theorem c9_li_substring_dominates_witness :
    detectChemistry [("Zn(CF3SO3)2", 3), ("H2O", 100), ("LiTFSI", 0.5)] = "lithium-ion" :=
  c9_li_substring_dominates _
    ⟨("LiTFSI", 0.5), by simp, by decide⟩

/-! ## Experiment planning agent (`experiment_planning_agent.py`) -/

/-- One formulation component (glossary "Formulation" entry shape). -/
structure FormComponent where
  name : String
  abbreviation : String
  concentration : ℚ
  unit : String
  role : String
deriving DecidableEq

/-- One experimental protocol of `_initialize_protocols`. -/
structure Protocol where
  name : String
  steps : List String
  duration : String
  equipment : List String
deriving DecidableEq

/-- Embeds `base_protocols["cell_assembly"]`. -/
def cellAssemblyProtocol : Protocol :=
  { name := "Cell Assembly",
    steps := ["Prepare electrodes according to battery type specifications",
              "Dry components under vacuum at appropriate temperature",
              "Transfer to controlled atmosphere environment",
              "Stack electrodes with appropriate separator",
              "Add electrolyte with precise volume",
              "Seal cell according to cell format",
              "Rest before testing"],
    duration := "1-2 days",
    equipment := ["Glovebox/dry room", "Cell assembly tools", "Vacuum oven"] }

/-- Embeds `base_protocols["cycling_test"]`. -/
def cyclingTestProtocol : Protocol :=
  { name := "Galvanostatic Cycling",
    steps := ["Connect cell to battery cycler",
              "Set voltage window appropriate for battery chemistry",
              "Perform formation cycles at low rate",
              "Run regular cycling at specified rate",
              "Record capacity, efficiency, voltage profiles"],
    duration := "1-4 weeks depending on cycle number",
    equipment := ["Battery cycler", "Temperature chamber"] }

/-- Embeds `base_protocols["rate_capability"]`. -/
def rateCapabilityProtocol : Protocol :=
  { name := "Rate Capability Test",
    steps := ["Complete formation cycles",
              "Cycle at progressively higher rates",
              "Return to low rate for recovery check",
              "Plot capacity vs rate"],
    duration := "3-5 days",
    equipment := ["Battery cycler"] }

/-- Embeds `base_protocols["impedance_spectroscopy"]`. -/
def impedanceSpectroscopyProtocol : Protocol :=
  { name := "Electrochemical Impedance Spectroscopy (EIS)",
    steps := ["Equilibrate cell at desired state of charge",
              "Apply small AC perturbation",
              "Sweep frequency range",
              "Analyze impedance response"],
    duration := "2-4 hours per measurement",
    equipment := ["Potentiostat/Galvanostat", "Frequency response analyzer"] }

/-- Embeds `base_protocols["conductivity_measurement"]`. -/
def conductivityMeasurementProtocol : Protocol :=
  { name := "Ionic Conductivity Measurement",
    steps := ["Prepare electrolyte sample",
              "Fill conductivity cell",
              "Measure impedance",
              "Calculate conductivity",
              "Optional: temperature-dependent measurements"],
    duration := "1-2 hours",
    equipment := ["Conductivity cell", "Impedance analyzer"] }

/-- An experiment plan dict as built by `_generate_fallback_plans` /
`_parse_llm_plans`, after `process` attaches `protocols`. -/
structure ExperimentPlan where
  planId : String
  title : String
  formulation : List FormComponent
  rationale : String
  batteryType : String
  experimentalSteps : List String
  safetyConsiderations : List String
  estimatedCost : String
  estimatedTime : String
  priorityScore : ℚ
  protocols : List Protocol := []
deriving DecidableEq

/-- A `(title, formulation, rationale, priority_score)` template record of
`_generate_fallback_plans`. -/
structure PlanTemplate where
  title : String
  formulation : List FormComponent
  rationale : String
  priorityScore : ℚ
deriving DecidableEq

/-- The three templates (`baseline` / `optimized` / `advanced`) of one
chemistry. -/
structure ChemTemplates where
  baseline : PlanTemplate
  optimized : PlanTemplate
  advanced : PlanTemplate
deriving DecidableEq

/-- Embeds `templates["zinc"]`. -/
def zincTemplates : ChemTemplates :=
  { baseline :=
      { title := "Baseline Aqueous Zinc Electrolyte",
        formulation := [
          { name := "Zinc Sulfate", abbreviation := "ZnSO4",
            concentration := 2.0, unit := "M", role := "salt" },
          { name := "Water", abbreviation := "H2O",
            concentration := 100, unit := "vol%", role := "solvent" },
          { name := "Manganese Sulfate", abbreviation := "MnSO4",
            concentration := 0.1, unit := "M", role := "additive" }],
        rationale := "Standard aqueous zinc electrolyte with MnSO4 to suppress Mn dissolution from cathode.",
        priorityScore := 0.85 },
    optimized :=
      { title := "Optimized Zinc Triflate Electrolyte",
        formulation := [
          { name := "Zinc Trifluoromethanesulfonate", abbreviation := "Zn(CF3SO3)2",
            concentration := 3.0, unit := "M", role := "salt" },
          { name := "Water", abbreviation := "H2O",
            concentration := 100, unit := "vol%", role := "solvent" },
          { name := "Lithium bis(trifluoromethanesulfonyl)imide", abbreviation := "LiTFSI",
            concentration := 0.5, unit := "M", role := "additive" }],
        rationale := "High-concentration zinc triflate with LiTFSI for improved Zn plating/stripping reversibility.",
        priorityScore := 0.90 },
    advanced :=
      { title := "Water-in-Salt Zinc Electrolyte",
        formulation := [
          { name := "Zinc Trifluoromethanesulfonate", abbreviation := "Zn(CF3SO3)2",
            concentration := 4.0, unit := "M", role := "salt" },
          { name := "Lithium bis(trifluoromethanesulfonyl)imide", abbreviation := "LiTFSI",
            concentration := 21.0, unit := "M", role := "salt" },
          { name := "Water", abbreviation := "H2O",
            concentration := 100, unit := "vol%", role := "solvent" }],
        rationale := "Water-in-salt electrolyte with expanded electrochemical stability window and dendrite suppression.",
        priorityScore := 0.88 } }

/-- Embeds `templates["sodium-ion"]`. -/
def sodiumIonTemplates : ChemTemplates :=
  { baseline :=
      { title := "Baseline Sodium-ion Electrolyte",
        formulation := [
          { name := "Ethylene Carbonate", abbreviation := "EC",
            concentration := 50, unit := "vol%", role := "solvent" },
          { name := "Propylene Carbonate", abbreviation := "PC",
            concentration := 50, unit := "vol%", role := "solvent" },
          { name := "Sodium Hexafluorophosphate", abbreviation := "NaPF6",
            concentration := 1.0, unit := "M", role := "salt" }],
        rationale := "Standard carbonate-based electrolyte for sodium-ion batteries.",
        priorityScore := 0.85 },
    optimized :=
      { title := "Optimized Ether-based Na Electrolyte",
        formulation := [
          { name := "Diethylene Glycol Dimethyl Ether", abbreviation := "Diglyme",
            concentration := 100, unit := "vol%", role := "solvent" },
          { name := "Sodium bis(trifluoromethanesulfonyl)imide", abbreviation := "NaTFSI",
            concentration := 1.0, unit := "M", role := "salt" }],
        rationale := "Ether-based electrolyte with improved Na metal compatibility and lower viscosity.",
        priorityScore := 0.90 },
    advanced :=
      { title := "Advanced Concentrated Na Electrolyte",
        formulation := [
          { name := "Dimethoxyethane", abbreviation := "DME",
            concentration := 100, unit := "vol%", role := "solvent" },
          { name := "Sodium bis(fluorosulfonyl)imide", abbreviation := "NaFSI",
            concentration := 4.0, unit := "M", role := "salt" }],
        rationale := "High-concentration NaFSI in ether for stable Na metal anode performance.",
        priorityScore := 0.88 } }

/-- Embeds `templates["lithium-ion"]`. -/
def lithiumIonTemplates : ChemTemplates :=
  { baseline :=
      { title := "Baseline Commercial-type Electrolyte",
        formulation := [
          { name := "Ethylene Carbonate", abbreviation := "EC",
            concentration := 30, unit := "vol%", role := "solvent" },
          { name := "Ethyl Methyl Carbonate", abbreviation := "EMC",
            concentration := 70, unit := "vol%", role := "solvent" },
          { name := "Lithium Hexafluorophosphate", abbreviation := "LiPF6",
            concentration := 1.0, unit := "M", role := "salt" },
          { name := "Vinylene Carbonate", abbreviation := "VC",
            concentration := 2, unit := "wt%", role := "additive" }],
        rationale := "Industry-standard EC:EMC electrolyte with VC additive for SEI formation.",
        priorityScore := 0.85 },
    optimized :=
      { title := "Optimized Li-ion Electrolyte",
        formulation := [
          { name := "Ethylene Carbonate", abbreviation := "EC",
            concentration := 30, unit := "vol%", role := "solvent" },
          { name := "Dimethyl Carbonate", abbreviation := "DMC",
            concentration := 40, unit := "vol%", role := "solvent" },
          { name := "Ethyl Methyl Carbonate", abbreviation := "EMC",
            concentration := 30, unit := "vol%", role := "solvent" },
          { name := "Lithium bis(fluorosulfonyl)imide", abbreviation := "LiFSI",
            concentration := 1.2, unit := "M", role := "salt" },
          { name := "Vinylene Carbonate", abbreviation := "VC",
            concentration := 1.5, unit := "wt%", role := "additive" },
          { name := "Fluoroethylene Carbonate", abbreviation := "FEC",
            concentration := 5, unit := "wt%", role := "additive" }],
        rationale := "Ternary solvent with LiFSI for improved conductivity and thermal stability.",
        priorityScore := 0.90 },
    advanced :=
      { title := "Advanced Dual-Salt Li Electrolyte",
        formulation := [
          { name := "Ethylene Carbonate", abbreviation := "EC",
            concentration := 30, unit := "vol%", role := "solvent" },
          { name := "Dimethyl Carbonate", abbreviation := "DMC",
            concentration := 35, unit := "vol%", role := "solvent" },
          { name := "Ethyl Methyl Carbonate", abbreviation := "EMC",
            concentration := 35, unit := "vol%", role := "solvent" },
          { name := "Lithium Hexafluorophosphate", abbreviation := "LiPF6",
            concentration := 0.8, unit := "M", role := "salt" },
          { name := "Lithium bis(fluorosulfonyl)imide", abbreviation := "LiFSI",
            concentration := 0.2, unit := "M", role := "salt" },
          { name := "Vinylene Carbonate", abbreviation := "VC",
            concentration := 2, unit := "wt%", role := "additive" },
          { name := "1,3,2-Dioxathiolane 2,2-dioxide", abbreviation := "DTD",
            concentration := 1, unit := "wt%", role := "additive" }],
        rationale := "Dual-salt system with synergistic SEI formation from VC and DTD.",
        priorityScore := 0.88 } }

/-- Embeds `templates["magnesium"]`. -/
def magnesiumTemplates : ChemTemplates :=
  { baseline :=
      { title := "Baseline APC Magnesium Electrolyte",
        formulation := [
          { name := "Magnesium Chloride", abbreviation := "MgCl2",
            concentration := 0.25, unit := "M", role := "salt" },
          { name := "Aluminum Chloride", abbreviation := "AlCl3",
            concentration := 0.5, unit := "M", role := "Lewis acid" },
          { name := "Tetrahydrofuran", abbreviation := "THF",
            concentration := 100, unit := "vol%", role := "solvent" }],
        rationale := "All-phenyl complex (APC) type electrolyte, well-established for Mg batteries.",
        priorityScore := 0.85 },
    optimized :=
      { title := "Optimized Mg(TFSI)2 Electrolyte",
        formulation := [
          { name := "Magnesium bis(trifluoromethanesulfonyl)imide", abbreviation := "Mg(TFSI)2",
            concentration := 0.5, unit := "M", role := "salt" },
          { name := "Dimethoxyethane", abbreviation := "DME",
            concentration := 50, unit := "vol%", role := "solvent" },
          { name := "Tetraglyme", abbreviation := "TEGDME",
            concentration := 50, unit := "vol%", role := "solvent" }],
        rationale := "Non-corrosive Mg(TFSI)2 salt in glyme-based solvents for wider compatibility.",
        priorityScore := 0.88 },
    advanced :=
      { title := "Advanced Mg Electrolyte with Boron Cluster",
        formulation := [
          { name := "Magnesium Carborane", abbreviation := "Mg(CB11H12)2",
            concentration := 0.5, unit := "M", role := "salt" },
          { name := "Tetraglyme", abbreviation := "TEGDME",
            concentration := 100, unit := "vol%", role := "solvent" }],
        rationale := "Carborane-based anion provides high oxidative stability and non-nucleophilic character.",
        priorityScore := 0.82 } }

/-- Embeds `templates.get(battery_type, templates["lithium-ion"])`. -/
def chemTemplatesFor (batteryType : String) : ChemTemplates :=
  if batteryType == "zinc" then zincTemplates
  else if batteryType == "sodium-ion" then sodiumIonTemplates
  else if batteryType == "lithium-ion" then lithiumIonTemplates
  else if batteryType == "magnesium" then magnesiumTemplates
  else lithiumIonTemplates

/-- Embeds `_detect_battery_type`. -/
def detectBatteryType (query : String) : String :=
  let queryLower := strLower query
  if ["zinc", "zn-ion", "zn ion", "zn metal", "zn anode", "aqueous zinc"].any
      (fun kw => strContains queryLower kw) then "zinc"
  else if ["sodium", "na-ion", "na ion", "sodium-ion"].any
      (fun kw => strContains queryLower kw) then "sodium-ion"
  else if ["magnesium", "mg-ion", "mg ion", "mg metal"].any
      (fun kw => strContains queryLower kw) then "magnesium"
  else if ["solid-state", "solid state", "all-solid", "solid electrolyte",
      "polymer electrolyte"].any (fun kw => strContains queryLower kw) then "solid-state"
  else if ["aqueous", "water-based", "water based"].any
      (fun kw => strContains queryLower kw) then "aqueous"
  else if ["lithium", "li-ion", "li ion", "lithium-ion", "lipf6", "lifsi"].any
      (fun kw => strContains queryLower kw) then "lithium-ion"
  else "lithium-ion"

/-- Python `f"{q:.2f}"` for the non-negative scores the planner formats. -/
def fmt2 (q : ℚ) : String :=
  let n := round (100 * q)
  let whole := n / 100
  let frac := (n % 100).natAbs
  toString whole ++ "." ++ (if frac < 10 then "0" ++ toString frac else toString frac)

/-- Embeds `_generate_fallback_plans`.  `ids` supplies the `str(uuid.uuid4())[:8]`
draws (an external randomness source), one per generated plan. -/
def generateFallbackPlans (ids : ℕ → String) (_query batteryType : String) :
    List ExperimentPlan :=
  let chemTemplates := chemTemplatesFor batteryType
  let mkPlan : ℕ → PlanTemplate → ExperimentPlan := fun k template =>
    { planId := ids k,
      title := template.title,
      formulation := template.formulation,
      rationale := template.rationale,
      batteryType := batteryType,
      experimentalSteps := [
        "Prepare electrolyte for " ++ batteryType ++ " battery",
        "Verify purity and water content",
        "Assemble test cells",
        "Perform formation cycles",
        "Run cycling tests",
        "Conduct EIS measurements",
        "Analyze results"],
      safetyConsiderations := [
        "Handle all chemicals with appropriate PPE",
        "Work in appropriate atmosphere (glovebox for air-sensitive)",
        "Follow MSDS guidelines for all components"],
      estimatedCost := "$300-600",
      estimatedTime := "4-8 weeks",
      priorityScore := template.priorityScore }
  -- the source iterates over ["advanced", "optimized", "baseline"]
  [mkPlan 0 chemTemplates.advanced, mkPlan 1 chemTemplates.optimized,
   mkPlan 2 chemTemplates.baseline]

/-- Embeds `_select_protocols` (returns the same five protocols for every plan). -/
def selectProtocols (_plan : ExperimentPlan) (_batteryType : String) : List Protocol :=
  [cellAssemblyProtocol, cyclingTestProtocol, rateCapabilityProtocol,
   impedanceSpectroscopyProtocol, conductivityMeasurementProtocol]

/-- Embeds `_generate_recommendation`. -/
def generateRecommendation (plans : List ExperimentPlan) (batteryType : String) : String :=
  match plans with
  | [] => "Unable to generate recommendations for " ++ batteryType
      ++ " battery. Please provide more context."
  | topPlan :: _ =>
    ("Recommended for " ++ strUpper batteryType ++ " battery: \x27")
      ++ topPlan.title
      ++ ("\x27 (priority: " ++ fmt2 topPlan.priorityScore
        ++ "). This formulation uses components specifically selected for "
        ++ batteryType ++ " chemistry. Estimated cost: " ++ topPlan.estimatedCost
        ++ ", timeline: " ++ topPlan.estimatedTime ++ ".")

/-- Result dict of `ExperimentPlanningAgent.process`. -/
structure PlanResult where
  status : String
  experimentPlans : List ExperimentPlan
  totalPlans : ℕ
  batteryType : String
  recommendation : String
deriving DecidableEq

/-- The battery type `process` works with: the input one, or the detected one
when the input is empty. -/
def effectiveBatteryType (query batteryType : String) : String :=
  if batteryType == "" then detectBatteryType query else batteryType

/-- Embeds `ExperimentPlanningAgent.process` on the fallback path (`llm_service`
unavailable). -/
def planProcessNoLLM (ids : ℕ → String) (query batteryType : String) : PlanResult :=
  let bt := effectiveBatteryType query batteryType
  let plans := (generateFallbackPlans ids query bt).map fun plan =>
    { plan with protocols := selectProtocols plan bt }
  { status := "success",
    experimentPlans := plans,
    totalPlans := plans.length,
    batteryType := bt,
    recommendation := generateRecommendation plans bt }

/-! ### Claims C3 and C4 -/

/-- Every template of every chemistry has fully populated component fields. -/
theorem chemTemplates_fields (batteryType : String) :
    ∀ t ∈ [(chemTemplatesFor batteryType).advanced, (chemTemplatesFor batteryType).optimized,
        (chemTemplatesFor batteryType).baseline],
      ∀ c ∈ t.formulation,
        c.name ≠ "" ∧ c.abbreviation ≠ "" ∧ c.unit ≠ "" ∧ c.role ≠ "" := by
  unfold chemTemplatesFor
  split_ifs <;> decide

/-- C3 (counterexample): the fallback plans for lithium-ion chemistry carry
priority scores `[0.88, 0.90, 0.85]` — the list is not ordered by
non-increasing `priority_score`. -/
theorem c3_counterexample :
    ((planProcessNoLLM (fun _ => "") "electrolyte design" "lithium-ion").experimentPlans.map
        (fun p => p.priorityScore)) = [0.88, 0.90, 0.85] ∧
    ¬ List.Pairwise (fun a b : ℚ => b ≤ a)
      ((planProcessNoLLM (fun _ => "") "electrolyte design" "lithium-ion").experimentPlans.map
        (fun p => p.priorityScore)) := by
  have hmap : ((planProcessNoLLM (fun _ => "") "electrolyte design" "lithium-ion").experimentPlans.map
      (fun p => p.priorityScore)) = [0.88, 0.90, 0.85] := rfl
  refine ⟨hmap, ?_⟩
  rw [hmap]
  intro hp
  have h1 := (List.pairwise_cons.mp hp).1 0.90 (List.mem_cons_self 0.90 [0.85])
  norm_num at h1

/-- C3 (amended): the planner's recommendation names the first plan of the
returned `experiment_plans` list (which, on the fallback path, is the
`advanced` template, not the plan of highest priority score). -/
theorem c3_recommendation_names_first_plan (ids : ℕ → String) (query batteryType : String) :
    ∃ top rest,
      (planProcessNoLLM ids query batteryType).experimentPlans = top :: rest ∧
      top.title = (chemTemplatesFor (effectiveBatteryType query batteryType)).advanced.title ∧
      strContains (planProcessNoLLM ids query batteryType).recommendation top.title = true := by
  refine ⟨_, _, rfl, rfl, ?_⟩
  exact strContains_append _ _ _

/-- C4: on the fallback path the planner returns exactly 3 plans drawn from
the static template table of the effective battery chemistry (in the fixed
order advanced, optimized, baseline), each with fully populated formulation
components, a non-empty protocols list, and `total_plans` equal to the number
of returned plans. -/
theorem c4_fallback_plan_shape (ids : ℕ → String) (query batteryType : String) :
    (planProcessNoLLM ids query batteryType).experimentPlans.length = 3 ∧
    (planProcessNoLLM ids query batteryType).totalPlans
      = (planProcessNoLLM ids query batteryType).experimentPlans.length ∧
    (∀ p ∈ (planProcessNoLLM ids query batteryType).experimentPlans,
      p.protocols ≠ [] ∧ ∀ c ∈ p.formulation,
        c.name ≠ "" ∧ c.abbreviation ≠ "" ∧ c.unit ≠ "" ∧ c.role ≠ "") ∧
    (planProcessNoLLM ids query batteryType).experimentPlans.map
        (fun p => (p.title, p.formulation, p.rationale, p.priorityScore))
      = [((chemTemplatesFor (effectiveBatteryType query batteryType)).advanced.title,
          (chemTemplatesFor (effectiveBatteryType query batteryType)).advanced.formulation,
          (chemTemplatesFor (effectiveBatteryType query batteryType)).advanced.rationale,
          (chemTemplatesFor (effectiveBatteryType query batteryType)).advanced.priorityScore),
         ((chemTemplatesFor (effectiveBatteryType query batteryType)).optimized.title,
          (chemTemplatesFor (effectiveBatteryType query batteryType)).optimized.formulation,
          (chemTemplatesFor (effectiveBatteryType query batteryType)).optimized.rationale,
          (chemTemplatesFor (effectiveBatteryType query batteryType)).optimized.priorityScore),
         ((chemTemplatesFor (effectiveBatteryType query batteryType)).baseline.title,
          (chemTemplatesFor (effectiveBatteryType query batteryType)).baseline.formulation,
          (chemTemplatesFor (effectiveBatteryType query batteryType)).baseline.rationale,
          (chemTemplatesFor (effectiveBatteryType query batteryType)).baseline.priorityScore)] := by
  refine ⟨rfl, rfl, ?_, rfl⟩
  intro p hp
  have hfields := chemTemplates_fields (effectiveBatteryType query batteryType)
  simp only [planProcessNoLLM, generateFallbackPlans, List.map_cons, List.map_nil,
    List.mem_cons, List.not_mem_nil, or_false] at hp
  rcases hp with h | h | h <;> subst h <;> refine ⟨by simp [selectProtocols], ?_⟩
  · exact hfields _ (by simp)
  · exact hfields _ (by simp)
  · exact hfields _ (by simp)

/-- Witness for C4 at a concrete query with empty battery type. -/
theorem c4_fallback_plan_shape_witness :
    (planProcessNoLLM (fun _ => "") "design a zinc battery electrolyte" "").experimentPlans.length = 3 ∧
    (planProcessNoLLM (fun _ => "") "design a zinc battery electrolyte" "").totalPlans = 3 := by
  have h := c4_fallback_plan_shape (fun _ => "") "design a zinc battery electrolyte" ""
  exact ⟨h.1, h.2.1.trans h.1⟩

/-! ## Literature RAG agent (`literature_rag_agent.py`) -/

/-- One result snippet dict (`title`/`content`/`relevance_score`/`source`;
the `metadata` sub-dict of uploaded-document results, which no embedded
operation reads, is represented by its `page`/`chunk_id` entries). -/
structure LitSource where
  title : String
  content : String
  relevanceScore : ℚ
  source : String
  page : Option String := none
  chunkId : Option String := none
deriving DecidableEq

/-- A knowledge-base info record (`name`/`properties`/`use_case`). -/
structure KBInfo where
  name : String
  properties : String
  useCase : String
deriving DecidableEq

/-- Embeds `knowledge_base["common_solvents"]`. -/
def commonSolvents : List (String × KBInfo) := [
  ("EC", { name := "Ethylene Carbonate",
           properties := "High dielectric constant (~90), high melting point (36°C)",
           useCase := "Primary solvent for lithium-ion batteries, excellent SEI former" }),
  ("DMC", { name := "Dimethyl Carbonate",
            properties := "Low viscosity, low dielectric constant",
            useCase := "Co-solvent to reduce viscosity, improves ion mobility" }),
  ("EMC", { name := "Ethyl Methyl Carbonate",
            properties := "Low viscosity, good low-temperature performance",
            useCase := "Co-solvent for improved rate capability" }),
  ("DEC", { name := "Diethyl Carbonate",
            properties := "Very low viscosity, wide liquid range",
            useCase := "Co-solvent for high-rate applications" }),
  ("PC", { name := "Propylene Carbonate",
           properties := "High dielectric constant, low melting point (-49°C)",
           useCase := "Single solvent for some applications, graphite incompatible" })]

/-- Embeds `knowledge_base["common_salts"]`. -/
def commonSalts : List (String × KBInfo) := [
  ("LiPF6", { name := "Lithium Hexafluorophosphate",
              properties := "High ionic conductivity, thermally unstable above 60°C",
              useCase := "Most common commercial lithium salt" }),
  ("LiTFSI", { name := "Lithium bis(trifluoromethanesulfonyl)imide",
               properties := "Thermally stable, corrosive to aluminum at high voltage",
               useCase := "Solid-state and high-temperature applications" }),
  ("LiFSI", { name := "Lithium bis(fluorosulfonyl)imide",
              properties := "High ionic conductivity, better thermal stability than LiPF6",
              useCase := "High-performance liquid electrolytes" }),
  ("LiBF4", { name := "Lithium Tetrafluoroborate",
              properties := "Lower conductivity, better thermal stability",
              useCase := "High-temperature applications" })]

/-- Embeds `knowledge_base["common_additives"]`. -/
def commonAdditives : List (String × KBInfo) := [
  ("VC", { name := "Vinylene Carbonate",
           properties := "Polymerizes on anode surface",
           useCase := "SEI stabilizer, improves cycle life (1-2 wt%)" }),
  ("FEC", { name := "Fluoroethylene Carbonate",
            properties := "Forms fluorinated SEI components",
            useCase := "Silicon anode stabilizer, high-voltage stabilizer (5-10 wt%)" }),
  ("PS", { name := "Propane Sultone",
           properties := "Forms sulfur-containing SEI",
           useCase := "Anode passivation, reduces gas generation (1-3 wt%)" }),
  ("LiBOB", { name := "Lithium bis(oxalato)borate",
              properties := "Forms protective cathode film",
              useCase := "High-voltage cathode stabilizer (0.5-1 wt%)" }),
  ("DTD", { name := "1,3,2-Dioxathiolane 2,2-dioxide",
            properties := "Sulfur-containing additive",
            useCase := "SEI former, capacity retention improvement (1-2 wt%)" })]

/-- Embeds `knowledge_base["recent_trends"]`. -/
def recentTrends : List String := [
  "High-concentration electrolytes (>3M) for extended voltage windows",
  "Localized high-concentration electrolytes with diluents",
  "Fluorinated solvents for high-voltage stability",
  "Ionic liquid electrolytes for safety",
  "Solid-state electrolytes: sulfides, oxides, polymers",
  "Dual-salt electrolytes for synergistic effects",
  "Weakly-coordinating anions for improved kinetics"]

/-- The keyword list guarding the trend results. -/
def trendKeywords : List String :=
  ["high-voltage", "safety", "solid-state", "silicon", "fast-charging", "concentration"]

/-- One labelled section of `_search_knowledge_base` (solvents, salts or
additives): entries whose abbreviation or name occurs in the query, at
relevance 0.9. -/
def kbSectionResults (label : String) (table : List (String × KBInfo))
    (queryLower : String) : List LitSource :=
  table.filterMap fun p =>
    if strContains queryLower (strLower p.fst) || strContains queryLower (strLower p.snd.name) then
      some { title := label ++ ": " ++ p.snd.name ++ " (" ++ p.fst ++ ")",
             content := "Properties: " ++ p.snd.properties ++ ". Use case: " ++ p.snd.useCase,
             relevanceScore := 0.9,
             source := "knowledge_base" }
    else none

/-- The component sections of `_search_knowledge_base`, in source order. -/
def kbMainResults (queryLower : String) : List LitSource :=
  kbSectionResults "Solvent" commonSolvents queryLower
    ++ kbSectionResults "Salt" commonSalts queryLower
    ++ kbSectionResults "Additive" commonAdditives queryLower

/-- The trend section of `_search_knowledge_base` (relevance 0.75). -/
def kbTrendResults (queryLower : String) : List LitSource :=
  trendKeywords.flatMap fun keyword =>
    if strContains queryLower keyword then
      recentTrends.filterMap fun trend =>
        if strContains (strLower trend) keyword then
          some { title := "Recent Research Trend", content := trend,
                 relevanceScore := 0.75, source := "knowledge_base" }
        else none
    else []

/-- Embeds `_search_knowledge_base`. -/
def searchKnowledgeBase (query : String) : List LitSource :=
  kbMainResults (strLower query) ++ kbTrendResults (strLower query)

/-- One document held by the external vector store. -/
structure VSDoc where
  sourceName : Option String := none
  pageContent : String
  page : Option String := none
  chunkId : Option String := none
deriving DecidableEq

/-- Behaviour of the external similarity-search collaborator during one call
(`_search_vector_store` try/except structure). -/
inductive VectorStoreOutcome
  | noStore
  | searchError
  | scored (docs : List (VSDoc × ℚ))
  | unscored (docs : List VSDoc)
deriving DecidableEq

/-- Embeds `_search_vector_store`: L2 distances are normalized to a 0-1 similarity;
the fallback without scores uses the constant 0.85. -/
def searchVectorStore : VectorStoreOutcome → List LitSource
  | VectorStoreOutcome.noStore => []
  | VectorStoreOutcome.searchError => []
  | VectorStoreOutcome.scored docs => docs.map fun d =>
      let similarity := max 0 (min 1 (1 - d.snd / 2))
      { title := d.fst.sourceName.getD "Uploaded Document",
        content := d.fst.pageContent,
        relevanceScore := round2 similarity,
        source := "uploaded_document",
        page := d.fst.page,
        chunkId := d.fst.chunkId }
  | VectorStoreOutcome.unscored docs => docs.map fun d =>
      { title := d.sourceName.getD "Uploaded Document",
        content := d.pageContent,
        relevanceScore := 0.85,
        source := "uploaded_document",
        page := d.page }

/-- Python `s[:n]`. -/
def strTake (s : String) (n : ℕ) : String := ⟨s.data.take n⟩

/-- Embeds `_generate_summary`. -/
def generateLitSummary (query : String) (results : List LitSource) : String :=
  match results with
  | [] => "No specific literature found for query: \x27" ++ query
      ++ "\x27. Consider refining your search or uploading relevant documents."
  | _ =>
    let headLine := "Found " ++ toString results.length ++ " relevant sources for \x27"
      ++ query ++ "\x27:\n"
    let lines := (results.take 5).enum.map fun p =>
      toString (p.fst + 1) ++ ". " ++ p.snd.title ++ ": " ++ strTake p.snd.content 200 ++ "..."
    String.intercalate "\n" (headLine :: lines)

/-- Result dict of `LiteratureRAGAgent.process`; `llmSummary` models the
`llm_summary` key the orchestrator may add afterwards. -/
structure LitResult where
  status : String
  query : String
  results : List LitSource
  summary : String
  sourcesCount : ℕ
  llmSummary : Option String := none
deriving DecidableEq

/-- Embeds `LiteratureRAGAgent.process`. -/
def litProcess (vs : VectorStoreOutcome) (query : String) : LitResult :=
  let results := searchVectorStore vs ++ searchKnowledgeBase query
  { status := "success",
    query := query,
    results := results,
    summary := generateLitSummary query results,
    sourcesCount := results.length }

/-! ### Claim C7 -/

theorem filterMap_score_const {α : Type} (l : List α) (f : α → Option LitSource) (c : ℚ)
    (hf : ∀ a r, f a = some r → r.relevanceScore = c) :
    ∀ r ∈ l.filterMap f, r.relevanceScore = c := by
  intro r hr
  rcases List.mem_filterMap.mp hr with ⟨a, _, ha⟩
  exact hf a r ha

theorem kbSection_score (label : String) (table : List (String × KBInfo))
    (queryLower : String) :
    ∀ r ∈ kbSectionResults label table queryLower, r.relevanceScore = 0.9 := by
  apply filterMap_score_const
  intro a r ha
  split at ha
  · cases ha; rfl
  · cases ha

theorem kbMain_score (queryLower : String) :
    ∀ r ∈ kbMainResults queryLower, r.relevanceScore = 0.9 := by
  intro r hr
  simp only [kbMainResults, List.mem_append] at hr
  rcases hr with (h | h) | h
  · exact kbSection_score _ _ _ r h
  · exact kbSection_score _ _ _ r h
  · exact kbSection_score _ _ _ r h

theorem kbTrend_score (queryLower : String) :
    ∀ r ∈ kbTrendResults queryLower, r.relevanceScore = 0.75 := by
  intro r hr
  simp only [kbTrendResults, List.mem_flatMap] at hr
  rcases hr with ⟨kw, _, hkw⟩
  split at hkw
  · rcases List.mem_filterMap.mp hkw with ⟨t, _, ht⟩
    split at ht
    · cases ht; rfl
    · cases ht
  · cases hkw

theorem pairwise_ge_of_all_eq (l : List ℚ) (c : ℚ) (h : ∀ x ∈ l, x = c) :
    l.Pairwise (fun a b => b ≤ a) := by
  induction l with
  | nil => exact List.Pairwise.nil
  | cons a as ih =>
    refine List.Pairwise.cons ?_ (ih fun x hx => h x (List.mem_cons_of_mem _ hx))
    intro b hb
    rw [h a (List.mem_cons_self _ _), h b (List.mem_cons_of_mem _ hb)]

/-- C7 (counterexample): with an uploaded document at L2 distance 1.5
(similarity 0.25) and the query `"ec"` (which hits the EC knowledge-base entry
at relevance 0.9), the merged results list is `[0.25, 0.9]` — not ordered by
non-increasing relevance score. -/
theorem c7_counterexample :
    ((litProcess (VectorStoreOutcome.scored [({ pageContent := "uploaded passage" }, 1.5)])
        "ec").results.map (fun r => r.relevanceScore)) = [0.25, 0.9] ∧
    ¬ List.Pairwise (fun a b : ℚ => b ≤ a)
      ((litProcess (VectorStoreOutcome.scored [({ pageContent := "uploaded passage" }, 1.5)])
        "ec").results.map (fun r => r.relevanceScore)) := by
  have hsim : max (0 : ℚ) (min 1 (1 - 1.5 / 2)) = 0.25 := by
    rw [show (1 : ℚ) - 1.5 / 2 = 0.25 by norm_num]
    rw [min_eq_right (by norm_num : (0.25 : ℚ) ≤ 1),
        max_eq_right (by norm_num : (0 : ℚ) ≤ 0.25)]
  have hround : round2 (max (0 : ℚ) (min 1 (1 - 1.5 / 2))) = 0.25 := by
    rw [hsim, round2, show (100 : ℚ) * 0.25 = ((25 : ℤ) : ℚ) by norm_num, round_intCast]
    norm_num
  have h0 : ((litProcess (VectorStoreOutcome.scored [({ pageContent := "uploaded passage" }, 1.5)])
      "ec").results.map (fun r => r.relevanceScore))
      = [round2 (max 0 (min 1 (1 - 1.5 / 2))), 0.9] := rfl
  have hmap : ((litProcess (VectorStoreOutcome.scored [({ pageContent := "uploaded passage" }, 1.5)])
      "ec").results.map (fun r => r.relevanceScore)) = [0.25, 0.9] := by
    rw [h0, hround]
  refine ⟨hmap, ?_⟩
  rw [hmap]
  intro hp
  have h1 := (List.pairwise_cons.mp hp).1 0.9 (List.mem_cons_self 0.9 [])
  norm_num at h1

/-- C7 (amended): the returned `sources_count` equals the number of returned
results, and the built-in knowledge-table results are internally ranked by
non-increasing relevance (all 0.9 component entries before all 0.75 trend
entries); but the merged list is the concatenation of the external
similarity-search results with the knowledge-table results, with no merged
descending sort. -/
theorem c7_results_count_and_kb_ranking (vs : VectorStoreOutcome) (query : String) :
    (litProcess vs query).sourcesCount = (litProcess vs query).results.length ∧
    (litProcess vs query).results = searchVectorStore vs ++ searchKnowledgeBase query ∧
    List.Pairwise (fun a b : ℚ => b ≤ a)
      ((searchKnowledgeBase query).map (fun r => r.relevanceScore)) := by
  refine ⟨rfl, rfl, ?_⟩
  rw [searchKnowledgeBase, List.map_append]
  apply List.pairwise_append.mpr
  refine ⟨?_, ?_, ?_⟩
  · apply pairwise_ge_of_all_eq _ 0.9
    intro x hx
    rcases List.mem_map.mp hx with ⟨r, hr, hx'⟩
    rw [← hx']
    exact kbMain_score _ r hr
  · apply pairwise_ge_of_all_eq _ 0.75
    intro x hx
    rcases List.mem_map.mp hx with ⟨r, hr, hx'⟩
    rw [← hx']
    exact kbTrend_score _ r hr
  · intro x hx y hy
    rcases List.mem_map.mp hx with ⟨r, hr, hx'⟩
    rcases List.mem_map.mp hy with ⟨t, ht, hy'⟩
    rw [← hx', ← hy', kbMain_score _ r hr, kbTrend_score _ t ht]
    norm_num

/-! ## Query classification (`orchestrator_agent.py`, `_classify_query`) -/

/-- A classification record (the dicts returned by `_classify_query` /
`_llm_classify_query`). -/
structure Classification where
  queryType : String
  confidence : ℚ
  shouldDelegate : Bool
  reason : String
deriving DecidableEq

/-- The greeting patterns of `_classify_query`. -/
def greetingsList : List String :=
  ["hello", "hi", "hey", "good morning", "good afternoon", "good evening",
   "howdy", "greetings", "what\x27s up", "sup", "yo"]

/-- The help patterns of `_classify_query`. -/
def helpPatterns : List String :=
  ["help", "what can you do", "how do i use", "what is this",
   "how does this work", "capabilities", "features"]

/-- The greeting heuristic: exact match or prefix match on the lower-cased,
stripped query. -/
def greetingHeuristic (query : String) : Bool :=
  let queryLower := strTrim (strLower query)
  greetingsList.contains queryLower
    || greetingsList.any (fun g => strStartsWith queryLower g)

/-- The help heuristic: any pattern occurring in the lower-cased, stripped
query. -/
def helpHeuristic (query : String) : Bool :=
  let queryLower := strTrim (strLower query)
  helpPatterns.any (fun p => strContains queryLower p)

/-- Behaviour of the model backend during one classification call: the service
may be absent, the call may raise, or it returns a response whose JSON parse
(after markdown stripping) either fails or yields a classification record. -/
inductive LLMClassifyOutcome
  | unavailable
  | raises
  | returns (parsed : Option Classification)
deriving DecidableEq

/-- The `except json.JSONDecodeError` default of `_llm_classify_query`. -/
def parseFailedClassification : Classification :=
  { queryType := "electrolyte_design", confidence := 0.6, shouldDelegate := true,
    reason := "Classification parsing failed, defaulting to design workflow" }

/-- Embeds `_llm_classify_query` after the model call succeeded: the parsed record,
or the parse-failure default. -/
def llmClassifyQuery (parsed : Option Classification) : Classification :=
  match parsed with
  | some c => c
  | none => parseFailedClassification

/-- The final `return` of `_classify_query` (no service, or the call raised). -/
def defaultDesignClassification : Classification :=
  { queryType := "electrolyte_design", confidence := 0.7, shouldDelegate := true,
    reason := "Defaulting to electrolyte design workflow" }

/-- Embeds `_classify_query`. -/
def classifyQuery (query : String) (llm : LLMClassifyOutcome) : Classification :=
  if greetingHeuristic query then
    { queryType := "greeting", confidence := 0.95, shouldDelegate := false,
      reason := "Simple greeting detected" }
  else if helpHeuristic query then
    { queryType := "help", confidence := 0.9, shouldDelegate := false,
      reason := "Help request detected" }
  else
    match llm with
    | LLMClassifyOutcome.unavailable => defaultDesignClassification
    | LLMClassifyOutcome.raises => defaultDesignClassification
    | LLMClassifyOutcome.returns parsed => llmClassifyQuery parsed

/-! ### Claim C6 -/

/-- C6: when neither keyword heuristic matches and the model backend is
unavailable, raises, or returns a response that cannot be parsed, the
classifier yields `electrolyte_design` with `should_delegate = true`, routing
the query to the full design workflow. -/
theorem c6_classifier_defaults_to_design (query : String) (llm : LLMClassifyOutcome)
    (hg : greetingHeuristic query = false) (hh : helpHeuristic query = false)
    (hllm : llm = LLMClassifyOutcome.unavailable ∨ llm = LLMClassifyOutcome.raises ∨
      llm = LLMClassifyOutcome.returns none) :
    (classifyQuery query llm).queryType = "electrolyte_design" ∧
    (classifyQuery query llm).shouldDelegate = true := by
  rcases hllm with h | h | h <;> subst h <;>
    simp [classifyQuery, hg, hh, defaultDesignClassification, llmClassifyQuery,
      parseFailedClassification]

/-- Witness for C6 on a design query with no model backend. -/
theorem c6_classifier_defaults_to_design_witness :
    greetingHeuristic "Design a zinc battery electrolyte" = false ∧
    helpHeuristic "Design a zinc battery electrolyte" = false ∧
    (classifyQuery "Design a zinc battery electrolyte"
        LLMClassifyOutcome.unavailable).queryType = "electrolyte_design" ∧
    (classifyQuery "Design a zinc battery electrolyte"
        LLMClassifyOutcome.unavailable).shouldDelegate = true := by
  have h := c6_classifier_defaults_to_design "Design a zinc battery electrolyte"
    LLMClassifyOutcome.unavailable (by decide) (by decide) (Or.inl rfl)
  exact ⟨by decide, by decide, h.1, h.2⟩

/-! ## Orchestrator (`orchestrator_agent.py`) -/

/-- The structured requirements record produced by `_parse_query` /
`_analyze_query_with_llm`.  The keyword/regex extraction itself is an input of
the embedded coordinator (no claim constrains its output), so theorems
quantify over it. -/
structure Requirements where
  components : List String
  operatingConditions : OperatingConditions
  electrodeMaterials : ElectrodeMaterials
  application : String
  batteryType : String
  userSpecifiedMaterials : List String := []
deriving DecidableEq

/-- Behaviour of the language-model collaborator for the orchestrator's
enhancement calls (each `Option` models a call that may raise, which the
source catches and ignores). -/
structure LLMService where
  classify : LLMClassifyOutcome
  generate : String → String → String
  summarizeLiterature : Option String
  predictCompatibility : Option String
  formulationRationale : Option String

/-- One `plan_id`/`plan_title`/`predictions`/`confidence_score` record of
`all_predictions`. -/
structure PlanPrediction where
  planId : String
  planTitle : String
  predictions : Predictions
  confidenceScore : ℚ
deriving DecidableEq

/-- The heterogeneous `data` payload of an agent response. -/
inductive AgentData
  | orchestrator (responseType : String)
  | literature (r : LitResult)
  | property (r : PropResult)
  | planning (r : PlanResult)
  | prediction (predictionsPerPlan : List PlanPrediction) (averageConfidence : ℚ)
      (totalPlansEvaluated : ℕ)
deriving DecidableEq

/-- One entry of `agent_responses`. -/
structure AgentResponse where
  agentType : String
  status : String
  message : String
  data : AgentData
deriving DecidableEq

/-- An experiment plan after the design workflow attached
`predicted_performance`, `prediction_confidence`, `prediction_notes` and
(optionally) `llm_rationale` to it. -/
structure AnnotatedPlan where
  plan : ExperimentPlan
  predictedPerformance : Predictions
  predictionConfidence : ℚ
  predictionNotes : String
  llmRationale : Option String := none
deriving DecidableEq

/-- A value of the response dict returned by `OrchestratorAgent.process`. -/
inductive RVal
  | vstr (s : String)
  | vnum (q : ℚ)
  | vagents (l : List AgentResponse)
  | vplans (l : List AnnotatedPlan)
  | vreqs (r : Option Requirements)
deriving DecidableEq

/-- The input dict the orchestrator passes to the planning agent. -/
structure PlanInput where
  query : String
  literatureData : LitResult
  propertyData : PropResult
  targetApplication : String
  batteryType : String
  operatingConditions : OperatingConditions
  electrodeMaterials : ElectrodeMaterials
  userSpecifiedMaterials : List String
  detectedComponents : List String

/-- Embeds `_convert_formulation_to_dict` (keeps the first position of a repeated
abbreviation and overwrites its value, as a Python dict does; empty
abbreviations are skipped). -/
def convertFormulationToDict (formulation : List FormComponent) : List (String × ℚ) :=
  formulation.foldl
    (fun acc component =>
      let abbr := component.abbreviation
      if abbr == "" then acc
      else if acc.any (fun kv => kv.fst == abbr) then
        acc.map (fun kv => if kv.fst == abbr then (abbr, component.concentration) else kv)
      else acc ++ [(abbr, component.concentration)])
    []

/-- Python `f"{q:.0%}"` for the non-negative confidences it formats. -/
def fmtPct0 (q : ℚ) : String := toString (round (100 * q)) ++ "%"

/-- A decimal rendering of a number for the presentation-only summary lines
(Python prints the `float` repr; integer-valued numbers print without a
decimal point). -/
def fmtNum (q : ℚ) : String :=
  if q.den == 1 then toString q.num else fmt2 q

/-- Python `str.title()`. -/
def pyTitleAux : Bool → List Char → List Char
  | _, [] => []
  | prevAlpha, c :: rest =>
    (if prevAlpha then c.toLower else c.toUpper) :: pyTitleAux c.isAlpha rest

/-- Python `str.title()` on a string. -/
def pyTitle (s : String) : String := ⟨pyTitleAux false s.data⟩

/-- Python `.replace("_", " ")` for the single-character patterns used here. -/
def underscoresToSpaces (s : String) : String :=
  ⟨s.data.map fun c => if c == '_' then ' ' else c⟩

/-- The per-plan block of `_generate_summary_with_llm` (the embedded
prediction record always carries the five metric entries, as both
construction sites of the source do). -/
def designSummaryPlanLines (i : ℕ) (ap : AnnotatedPlan) : List String :=
  ["\n" ++ toString i ++ ". **" ++ ap.plan.title ++ "** (Priority: "
      ++ fmt2 ap.plan.priorityScore ++ ", Prediction Confidence: "
      ++ fmtPct0 ap.predictionConfidence ++ ")\n   - Cost: " ++ ap.plan.estimatedCost
      ++ ", Time: " ++ ap.plan.estimatedTime,
   "   - **Predicted Performance:**",
   "     - Capacity Retention: " ++ fmtNum ap.predictedPerformance.capacityRetentionPercent ++ "%",
   "     - Cycle Life: " ++ toString ap.predictedPerformance.cycleStabilityCycles ++ " cycles",
   "     - Rate Capability (2C): " ++ fmtNum ap.predictedPerformance.rateCapability2CPercent ++ "%",
   "     - Ionic Conductivity: " ++ fmtNum ap.predictedPerformance.ionicConductivityMSCm ++ " mS/cm"]

/-- Embeds `_generate_summary_with_llm` (pure string assembly; no model call). -/
def designSummary (query : String) (agentResponses : List AgentResponse)
    (experimentPlans : List AnnotatedPlan) (requirements : Requirements) : String :=
  let headParts := [
    "## Analysis Summary for Query: \"" ++ query ++ "\"\n",
    "### Interpreted Requirements:",
    "- **Target voltage**: " ++ fmtNum (requirements.operatingConditions.maxVoltage.getD 4.2) ++ "V",
    "- **Electrode system**: " ++ requirements.electrodeMaterials.cathode.getD "NMC"
      ++ " / " ++ requirements.electrodeMaterials.anode.getD "graphite",
    "- **Application**: " ++ pyTitle (underscoresToSpaces requirements.application),
    "- **Key components identified**: " ++ String.intercalate ", " requirements.components,
    "\n### Agent Analysis:"]
  let agentParts := agentResponses.map fun response =>
    "- **" ++ pyTitle (underscoresToSpaces response.agentType) ++ "**: " ++ response.message
  let planParts := ((experimentPlans.take 3).enum.map fun p =>
    designSummaryPlanLines (p.fst + 1) p.snd).flatten
  let tailParts := ["\n---\n*Analysis powered by GPT-4.1 and multi-agent coordination*"]
  String.intercalate "\n"
    (headParts ++ agentParts
      ++ ["\n### Recommended Experiments with Predicted Performance:"]
      ++ planParts ++ tailParts)

/-- The stage invocations of the design workflow, in execution order. -/
inductive StageEvent
  | literature
  | property
  | planner
  | predictor
deriving DecidableEq

/-- The aggregate state of `_handle_design_query` just before it builds the
response dict. -/
structure DesignData where
  query : String
  agentResponses : List AgentResponse
  experimentPlans : List AnnotatedPlan
  averageConfidence : ℚ
  summary : String
  requirements : Requirements

/-- Embeds `_handle_design_query`: the full design workflow.  Returns the stage
trace (which sub-agent `process` calls happened, in order) together with the
data the response dict is assembled from.  The planner and predictor are
passed as functions so the theorems cover both their model-backed and
fallback behaviours. -/
def handleDesignQuery (llm : Option LLMService) (parseQ : String → Requirements)
    (vs : VectorStoreOutcome) (planner : PlanInput → PlanResult)
    (predict : List (String × ℚ) → PredResult) (query : String) :
    List StageEvent × DesignData :=
  let requirements := parseQ query
  -- Step 1: literature search (plus the optional LLM summary enhancement)
  let litResult0 := litProcess vs query
  let litResult :=
    match llm with
    | some svc =>
      if litResult0.results.isEmpty then litResult0
      else
        match svc.summarizeLiterature with
        | some summary => { litResult0 with llmSummary := some summary }
        | none => litResult0
    | none => litResult0
  let litResponse : AgentResponse :=
    { agentType := "literature_rag", status := litResult.status,
      message := "Found " ++ toString litResult.sourcesCount ++ " relevant sources",
      data := AgentData.literature litResult }
  -- Step 2: property and compatibility check (the `.get` default component
  -- list of the source is dead code: `_parse_query` always sets the key)
  let components := requirements.components
  let propResult0 := propProcess components requirements.operatingConditions
    requirements.electrodeMaterials
  let propResult :=
    match llm with
    | some svc =>
      match svc.predictCompatibility with
      | some analysis => { propResult0 with llmAnalysis := some analysis }
      | none => propResult0
    | none => propResult0
  let propResponse : AgentResponse :=
    { agentType := "property_compatibility", status := propResult.status,
      message := "Analyzed " ++ toString components.length ++ " components, found "
        ++ toString propResult.compatibilityIssues.length ++ " issues",
      data := AgentData.property propResult }
  -- Step 3: experiment planning
  let planningResult := planner
    { query := query, literatureData := litResult, propertyData := propResult,
      targetApplication := requirements.application,
      batteryType := requirements.batteryType,
      operatingConditions := requirements.operatingConditions,
      electrodeMaterials := requirements.electrodeMaterials,
      userSpecifiedMaterials := requirements.userSpecifiedMaterials,
      detectedComponents := requirements.components }
  let experimentPlans := planningResult.experimentPlans
  let planResponse : AgentResponse :=
    { agentType := "experiment_planning", status := planningResult.status,
      message := "Generated " ++ toString planningResult.totalPlans
        ++ " experiment plans with formulations",
      data := AgentData.planning planningResult }
  -- Step 4: performance prediction for each formulation
  let annotated := experimentPlans.map fun plan =>
    let predictionResult := predict (convertFormulationToDict plan.formulation)
    { plan := plan,
      predictedPerformance := predictionResult.predictions,
      predictionConfidence := predictionResult.confidenceScore,
      predictionNotes := predictionResult.modelNotes : AnnotatedPlan }
  let allPredictions := annotated.map fun ap =>
    { planId := ap.plan.planId, planTitle := ap.plan.title,
      predictions := ap.predictedPerformance,
      confidenceScore := ap.predictionConfidence : PlanPrediction }
  let avgConfidence :=
    if allPredictions.isEmpty then 0
    else (allPredictions.map fun p => p.confidenceScore).sum / (allPredictions.length : ℚ)
  let predictionResponse : AgentResponse :=
    { agentType := "performance_prediction", status := "success",
      message := "Evaluated " ++ toString experimentPlans.length
        ++ " formulations with " ++ fmtPct0 avgConfidence ++ " average confidence",
      data := AgentData.prediction allPredictions (round2 avgConfidence)
        experimentPlans.length }
  -- Optional per-plan LLM rationale
  let annotatedFinal :=
    match llm with
    | some svc =>
      annotated.map fun ap =>
        match svc.formulationRationale with
        | some rationale => { ap with llmRationale := some rationale }
        | none => ap
    | none => annotated
  let agentResponses := [litResponse, propResponse, planResponse, predictionResponse]
  let summary := designSummary query agentResponses annotatedFinal requirements
  ([StageEvent.literature, StageEvent.property, StageEvent.planner]
      ++ experimentPlans.map (fun _ => StageEvent.predictor),
   { query := query, agentResponses := agentResponses,
     experimentPlans := annotatedFinal, averageConfidence := avgConfidence,
     summary := summary, requirements := requirements })

theorem isEmpty_map {α β : Type} (l : List α) (f : α → β) :
    (l.map f).isEmpty = l.isEmpty := by
  cases l <;> rfl

theorem map_const_replicate {α β : Type} (l : List α) (b : β) :
    l.map (fun _ => b) = List.replicate l.length b := by
  induction l with
  | nil => rfl
  | cons a as ih => simp [List.replicate, ih]

/-! ### Claim C2 -/

/-- C2: on every full design query the stage trace is Literature → Property →
Planner followed by exactly one Predictor invocation per plan produced by the
planner; every returned plan carries `predicted_performance` and
`prediction_confidence` from its own prediction call; and the reported average
confidence is the arithmetic mean of the per-plan confidence scores. -/
theorem c2_design_pipeline (llm : Option LLMService) (parseQ : String → Requirements)
    (vs : VectorStoreOutcome) (planner : PlanInput → PlanResult)
    (predict : List (String × ℚ) → PredResult) (query : String) :
    (handleDesignQuery llm parseQ vs planner predict query).fst
      = [StageEvent.literature, StageEvent.property, StageEvent.planner]
        ++ List.replicate
          (handleDesignQuery llm parseQ vs planner predict query).snd.experimentPlans.length
          StageEvent.predictor ∧
    (∀ ap ∈ (handleDesignQuery llm parseQ vs planner predict query).snd.experimentPlans,
      ap.predictedPerformance
        = (predict (convertFormulationToDict ap.plan.formulation)).predictions ∧
      ap.predictionConfidence
        = (predict (convertFormulationToDict ap.plan.formulation)).confidenceScore) ∧
    (handleDesignQuery llm parseQ vs planner predict query).snd.averageConfidence
      = (if (handleDesignQuery llm parseQ vs planner predict query).snd.experimentPlans.isEmpty
          then 0
          else ((handleDesignQuery llm parseQ vs planner predict query).snd.experimentPlans.map
              fun ap => ap.predictionConfidence).sum
            / ((handleDesignQuery llm parseQ vs planner predict query).snd.experimentPlans.length : ℚ)) := by
  rcases llm with _ | svc
  · refine ⟨?_, ?_, ?_⟩
    · simp [handleDesignQuery, map_const_replicate]
    · intro ap hap
      simp only [handleDesignQuery, List.mem_map] at hap
      rcases hap with ⟨plan, _, rfl⟩
      exact ⟨rfl, rfl⟩
    · simp [handleDesignQuery, isEmpty_map, List.map_map, Function.comp_def]
  · rcases hsvc : svc.formulationRationale with _ | r
    · refine ⟨?_, ?_, ?_⟩
      · simp [handleDesignQuery, map_const_replicate, hsvc]
      · intro ap hap
        simp only [handleDesignQuery, hsvc, List.mem_map, List.map_map] at hap
        rcases hap with ⟨plan, _, rfl⟩
        exact ⟨rfl, rfl⟩
      · simp [handleDesignQuery, isEmpty_map, List.map_map, Function.comp_def, hsvc]
    · refine ⟨?_, ?_, ?_⟩
      · simp [handleDesignQuery, map_const_replicate, hsvc]
      · intro ap hap
        simp only [handleDesignQuery, hsvc, List.mem_map, List.map_map] at hap
        rcases hap with ⟨plan, _, rfl⟩
        exact ⟨rfl, rfl⟩
      · simp [handleDesignQuery, isEmpty_map, List.map_map, Function.comp_def, hsvc]

/-- The `help_text` literal of `_handle_simple_query`. -/
def helpText : String :=
  "## Electrolyte Design System - Help\n\n### What I Can Do:\nI\x27m an AI-powered multi-agent system for lithium-ion battery electrolyte design. Here\x27s how I can help:\n\n**ðŸ”¬ Design Electrolytes**\n- Describe your requirements (high voltage, fast charging, long cycle life, etc.)\n- Specify electrode materials (NMC, LFP, silicon anode, etc.)\n- I\x27ll generate optimized formulations with scientific rationale\n\n**ðŸ“š Search Literature**\n- Upload research papers (PDF) for me to index\n- I\x27ll search both uploaded documents and my knowledge base\n- Get summaries of relevant electrolyte research\n\n**âš—ï¸ Check Compatibility**\n- Ask about specific components (EC, DMC, LiPF6, VC, FEC, etc.)\n- I\x27ll identify compatibility issues and constraints\n- Get recommendations for safe formulations\n\n**ðŸ“Š Predict Performance**\n- Get predictions for capacity retention, cycle life, rate capability\n- Understand temperature operating ranges\n- Compare different formulation options\n\n### Example Queries:\n- \"Design a high-voltage electrolyte for NMC cathode with silicon anode\"\n- \"What additives improve cycle life for fast-charging applications?\"\n- \"Check compatibility of LiPF6 with FEC at high temperatures\"\n- \"Compare EC/DMC vs EC/EMC solvent systems\"\n\n### Getting Started:\nSimply describe your electrolyte design requirements, and I\x27ll coordinate multiple specialized agents to deliver three optimized experiment plans!\n\n---\n*Powered by GPT-4.1 and multi-agent AI*"

/-- The greeting branch of `_handle_simple_query`. -/
def greetingResponse (llm : Option LLMService) (query : String) (t : ℚ) :
    List (String × RVal) :=
  let response :=
    match llm with
    | some svc => svc.generate
        ("User said: \x27" ++ query ++ "\x27. Respond warmly and briefly introduce yourself as an AI assistant for electrolyte design. Mention you can help design battery electrolytes and generate experiment plans.")
        "You are a friendly AI assistant specializing in lithium-ion battery electrolyte design."
    | none => "Hello! I\x27m the Electrolyte Design Assistant. I can help you design battery electrolytes, analyze component compatibility, predict performance, and generate detailed experiment plans. What would you like to work on today?"
  let agentResponse : AgentResponse :=
    { agentType := "orchestrator", status := "success",
      message := "Direct response - greeting",
      data := AgentData.orchestrator "greeting" }
  [("query", RVal.vstr query),
   ("agent_responses", RVal.vagents [agentResponse]),
   ("experiment_plans", RVal.vplans []),
   ("summary", RVal.vstr response),
   ("processing_time", RVal.vnum (round2 t)),
   ("requirements_parsed", RVal.vreqs none)]

/-- The help branch of `_handle_simple_query`. -/
def helpResponse (query : String) (t : ℚ) : List (String × RVal) :=
  let agentResponse : AgentResponse :=
    { agentType := "orchestrator", status := "success",
      message := "Direct response - help information",
      data := AgentData.orchestrator "help" }
  [("query", RVal.vstr query),
   ("agent_responses", RVal.vagents [agentResponse]),
   ("experiment_plans", RVal.vplans []),
   ("summary", RVal.vstr helpText),
   ("processing_time", RVal.vnum (round2 t)),
   ("requirements_parsed", RVal.vreqs none)]

/-- The off-topic branch of `_handle_simple_query`. -/
def offTopicResponse (llm : Option LLMService) (query : String) (t : ℚ) :
    List (String × RVal) :=
  let response :=
    match llm with
    | some svc => svc.generate
        ("User asked: \x27" ++ query ++ "\x27. Politely explain that you specialize in battery electrolyte design and redirect them. Be helpful but brief.")
        "You are an AI assistant specializing in lithium-ion battery electrolyte design. Politely redirect off-topic questions."
    | none => "I\x27m specialized in lithium-ion battery electrolyte design. I can help you design electrolyte formulations, check component compatibility, predict performance, and generate experiment plans. Would you like to explore any of these capabilities?"
  let agentResponse : AgentResponse :=
    { agentType := "orchestrator", status := "success",
      message := "Direct response - redirected off-topic query",
      data := AgentData.orchestrator "off_topic_redirect" }
  [("query", RVal.vstr query),
   ("agent_responses", RVal.vagents [agentResponse]),
   ("experiment_plans", RVal.vplans []),
   ("summary", RVal.vstr response),
   ("processing_time", RVal.vnum (round2 t)),
   ("requirements_parsed", RVal.vreqs none)]

/-- Embeds `_handle_literature_query`. -/
def handleLiteratureQuery (llm : Option LLMService) (vs : VectorStoreOutcome)
    (query : String) (t : ℚ) : List (String × RVal) :=
  let litResult0 := litProcess vs query
  let litResult :=
    match llm with
    | some svc =>
      if litResult0.results.isEmpty then litResult0
      else
        match svc.summarizeLiterature with
        | some summary => { litResult0 with llmSummary := some summary }
        | none => litResult0
    | none => litResult0
  let responseSummary := litResult.llmSummary.getD litResult.summary
  let agentResponse : AgentResponse :=
    { agentType := "literature_rag", status := litResult.status,
      message := "Found " ++ toString litResult.sourcesCount ++ " relevant sources",
      data := AgentData.literature litResult }
  [("query", RVal.vstr query),
   ("agent_responses", RVal.vagents [agentResponse]),
   ("experiment_plans", RVal.vplans []),
   ("summary", RVal.vstr ("## Literature Search Results\n\n" ++ responseSummary)),
   ("processing_time", RVal.vnum (round2 t)),
   ("requirements_parsed", RVal.vreqs none)]

/-- Embeds `_handle_property_query`. -/
def handlePropertyQuery (llm : Option LLMService) (parseQ : String → Requirements)
    (query : String) (t : ℚ) : List (String × RVal) :=
  let requirements := parseQ query
  let components := requirements.components
  let propResult0 := propProcess components requirements.operatingConditions
    requirements.electrodeMaterials
  let propResult :=
    match llm with
    | some svc =>
      match svc.predictCompatibility with
      | some analysis => { propResult0 with llmAnalysis := some analysis }
      | none => propResult0
    | none => propResult0
  let issueParts :=
    if propResult.compatibilityIssues.isEmpty then []
    else "### Compatibility Issues:" :: propResult.compatibilityIssues.flatMap fun issue =>
      ["- **" ++ strUpper issue.severity ++ "**: " ++ issue.issue,
       "  - Solution: " ++ issue.solution]
  let recParts :=
    if propResult.recommendations.isEmpty then []
    else "\n### Recommendations:" :: propResult.recommendations.map fun rec => "- " ++ rec
  let llmParts :=
    match propResult.llmAnalysis with
    | some analysis =>
      if analysis == "" then [] else ["\n### GPT-4.1 Analysis:\n" ++ analysis]
    | none => []
  let summaryParts :=
    ["## Property & Compatibility Analysis\n",
     "**Components analyzed**: " ++ String.intercalate ", " components ++ "\n"]
    ++ issueParts ++ recParts ++ llmParts
  let agentResponse : AgentResponse :=
    { agentType := "property_compatibility", status := propResult.status,
      message := "Analyzed " ++ toString components.length ++ " components",
      data := AgentData.property propResult }
  [("query", RVal.vstr query),
   ("agent_responses", RVal.vagents [agentResponse]),
   ("experiment_plans", RVal.vplans []),
   ("summary", RVal.vstr (String.intercalate "\n" summaryParts)),
   ("processing_time", RVal.vnum (round2 t)),
   ("requirements_parsed", RVal.vreqs (some requirements))]

/-- The response dict assembled at the end of `_handle_design_query`. -/
def designResponse (llm : Option LLMService) (parseQ : String → Requirements)
    (vs : VectorStoreOutcome) (planner : PlanInput → PlanResult)
    (predict : List (String × ℚ) → PredResult) (query : String) (t : ℚ) :
    List (String × RVal) :=
  let d := (handleDesignQuery llm parseQ vs planner predict query).snd
  [("query", RVal.vstr d.query),
   ("agent_responses", RVal.vagents d.agentResponses),
   ("experiment_plans", RVal.vplans d.experimentPlans),
   ("summary", RVal.vstr d.summary),
   ("processing_time", RVal.vnum (round2 t)),
   ("requirements_parsed", RVal.vreqs (some d.requirements))]

/-- The route `OrchestratorAgent.process` takes for a classification
(mirroring that `_handle_simple_query` returns `None` — and the dispatch
falls through — for any `should_delegate = false` type other than greeting,
help and off-topic). -/
inductive Route
  | greeting
  | help
  | offTopic
  | literature
  | property
  | design
deriving DecidableEq

/-- The dispatch order of `OrchestratorAgent.process`. -/
def routeOf (cls : Classification) : Route :=
  if !cls.shouldDelegate && cls.queryType == "greeting" then Route.greeting
  else if !cls.shouldDelegate && cls.queryType == "help" then Route.help
  else if !cls.shouldDelegate && cls.queryType == "off_topic" then Route.offTopic
  else if cls.queryType == "literature_search" then Route.literature
  else if cls.queryType == "property_check" then Route.property
  else Route.design

/-- The classification outcome `_classify_query` sees for a given service
state. -/
def classifyOutcomeOf (llm : Option LLMService) : LLMClassifyOutcome :=
  match llm with
  | none => LLMClassifyOutcome.unavailable
  | some svc => svc.classify

/-- Embeds `OrchestratorAgent.process`: classify, then dispatch. -/
def orchestratorProcess (llm : Option LLMService) (parseQ : String → Requirements)
    (vs : VectorStoreOutcome) (planner : PlanInput → PlanResult)
    (predict : List (String × ℚ) → PredResult) (query : String) (t : ℚ) :
    List (String × RVal) :=
  let cls := classifyQuery query (classifyOutcomeOf llm)
  match routeOf cls with
  | Route.greeting => greetingResponse llm query t
  | Route.help => helpResponse query t
  | Route.offTopic => offTopicResponse llm query t
  | Route.literature => handleLiteratureQuery llm vs query t
  | Route.property => handlePropertyQuery llm parseQ query t
  | Route.design => designResponse llm parseQ vs planner predict query t

/-! ### Claims C10 and C2 witnesses -/

/-- C10: every response of the coordinator's `process`, on every route,
carries exactly the keys `query`, `agent_responses`, `experiment_plans`,
`summary`, `processing_time`, `requirements_parsed`; and `experiment_plans`
is the empty list on every route except the full design workflow. -/
theorem c10_response_shape (llm : Option LLMService) (parseQ : String → Requirements)
    (vs : VectorStoreOutcome) (planner : PlanInput → PlanResult)
    (predict : List (String × ℚ) → PredResult) (query : String) (t : ℚ) :
    ((orchestratorProcess llm parseQ vs planner predict query t).map Prod.fst)
      = ["query", "agent_responses", "experiment_plans", "summary",
         "processing_time", "requirements_parsed"] ∧
    (routeOf (classifyQuery query (classifyOutcomeOf llm)) ≠ Route.design →
      (orchestratorProcess llm parseQ vs planner predict query t).lookup "experiment_plans"
        = some (RVal.vplans [])) := by
  cases hr : routeOf (classifyQuery query (classifyOutcomeOf llm)) <;>
    refine ⟨?_, fun hne => ?_⟩ <;>
    simp only [orchestratorProcess, hr] <;>
    first
      | rfl
      | exact absurd rfl hne

/-- Requirement extraction used by the witnesses. -/
def witnessParse : String → Requirements := fun _ =>
  { components := ["EC", "EMC", "LiPF6"], operatingConditions := {},
    electrodeMaterials := {}, application := "general", batteryType := "" }

/-- Fallback planner used by the witnesses. -/
def witnessPlanner : PlanInput → PlanResult := fun inp =>
  planProcessNoLLM (fun _ => "") inp.query inp.batteryType

/-- Fallback predictor (zero jitter draw) used by the witnesses. -/
def witnessPredict : List (String × ℚ) → PredResult := fun formulation =>
  basicEstimation formulation {} 0

/-- Witness for C2 with the model backend unavailable at a concrete query:
three fallback plans, one predictor invocation each, average confidence 0.5. -/
theorem c2_design_pipeline_witness :
    (handleDesignQuery none witnessParse VectorStoreOutcome.noStore witnessPlanner
        witnessPredict "design a battery electrolyte").fst
      = [StageEvent.literature, StageEvent.property, StageEvent.planner,
         StageEvent.predictor, StageEvent.predictor, StageEvent.predictor] ∧
    (handleDesignQuery none witnessParse VectorStoreOutcome.noStore witnessPlanner
        witnessPredict "design a battery electrolyte").snd.averageConfidence = 0.5 := by
  have h := c2_design_pipeline none witnessParse VectorStoreOutcome.noStore witnessPlanner
    witnessPredict "design a battery electrolyte"
  constructor
  · rw [h.1]
    rfl
  · rw [h.2.2]
    have hconf : (handleDesignQuery none witnessParse VectorStoreOutcome.noStore witnessPlanner
        witnessPredict "design a battery electrolyte").snd.experimentPlans.map
          (fun ap => ap.predictionConfidence) = [0.5, 0.5, 0.5] := rfl
    have hlen : (handleDesignQuery none witnessParse VectorStoreOutcome.noStore witnessPlanner
        witnessPredict "design a battery electrolyte").snd.experimentPlans.length = 3 := rfl
    have hempty : (handleDesignQuery none witnessParse VectorStoreOutcome.noStore witnessPlanner
        witnessPredict "design a battery electrolyte").snd.experimentPlans.isEmpty = false := rfl
    rw [hconf, hlen, hempty]
    norm_num [List.sum_cons, List.sum_nil]

/-- Witness for C10 on the greeting route (model backend unavailable). -/
theorem c10_response_shape_witness :
    ((orchestratorProcess none witnessParse VectorStoreOutcome.noStore witnessPlanner
        witnessPredict "hello" 0).map Prod.fst)
      = ["query", "agent_responses", "experiment_plans", "summary",
         "processing_time", "requirements_parsed"] ∧
    (orchestratorProcess none witnessParse VectorStoreOutcome.noStore witnessPlanner
        witnessPredict "hello" 0).lookup "experiment_plans" = some (RVal.vplans []) := by
  have h := c10_response_shape none witnessParse VectorStoreOutcome.noStore witnessPlanner
    witnessPredict "hello" 0
  refine ⟨h.1, h.2 ?_⟩
  decide
